import Mathlib

set_option maxRecDepth 100000
set_option maxHeartbeats 4000000

/-!
# Verification of the Stealf private-transfers shielded-pool core

Shallow embedding of `programs/private/src/{merkle_tree,commitment,
denomination,stealth,encryption,poseidon_utils}.rs`.

Bytes are modelled as naturals below 256; a 32-byte value is a `List Nat`
of length 32.  The repository's "Poseidon" utilities are, in the source,
SHA-256 with a domain-separation prefix (see `poseidon_utils.rs`), so the
standard SHA-256 function (FIPS 180-4, as computed by the `sha2` crate the
source calls) is embedded here in full and kept executable.
-/

/-- A byte string: each entry is a natural number below 256. -/
abbrev Bytes := List Nat

/-! ## SHA-256 (FIPS 180-4), as used by the `sha2` crate the source calls -/

/-- Modulus 2^32 for 32-bit words. -/
def MASK32 : Nat := 4294967296

/-- Wrapping 32-bit addition. -/
def add32 (a b : Nat) : Nat := (a + b) % MASK32

/-- Right rotation of a 32-bit word. -/
def rotr32 (x n : Nat) : Nat := ((x >>> n) ||| (x <<< (32 - n))) % MASK32

/-- Bitwise complement of a 32-bit word. -/
def not32 (x : Nat) : Nat := x ^^^ 4294967295

/-- SHA-256 `Ch` function. -/
def shaCh (e f g : Nat) : Nat := (e &&& f) ^^^ (not32 e &&& g)

/-- SHA-256 `Maj` function. -/
def shaMaj (a b c : Nat) : Nat := (a &&& b) ^^^ (a &&& c) ^^^ (b &&& c)

/-- SHA-256 big sigma 0. -/
def bigSig0 (a : Nat) : Nat := rotr32 a 2 ^^^ rotr32 a 13 ^^^ rotr32 a 22

/-- SHA-256 big sigma 1. -/
def bigSig1 (e : Nat) : Nat := rotr32 e 6 ^^^ rotr32 e 11 ^^^ rotr32 e 25

/-- SHA-256 small sigma 0. -/
def smallSig0 (x : Nat) : Nat := rotr32 x 7 ^^^ rotr32 x 18 ^^^ (x >>> 3)

/-- SHA-256 small sigma 1. -/
def smallSig1 (x : Nat) : Nat := rotr32 x 17 ^^^ rotr32 x 19 ^^^ (x >>> 10)

/-- SHA-256 round constants. -/
def shaK : List Nat := [1116352408, 1899447441, 3049323471, 3921009573, 961987163, 1508970993, 2453635748, 2870763221, 3624381080, 310598401, 607225278, 1426881987, 1925078388, 2162078206, 2614888103, 3248222580, 3835390401, 4022224774, 264347078, 604807628, 770255983, 1249150122, 1555081692, 1996064986, 2554220882, 2821834349, 2952996808, 3210313671, 3336571891, 3584528711, 113926993, 338241895, 666307205, 773529912, 1294757372, 1396182291, 1695183700, 1986661051, 2177026350, 2456956037, 2730485921, 2820302411, 3259730800, 3345764771, 3516065817, 3600352804, 4094571909, 275423344, 430227734, 506948616, 659060556, 883997877, 958139571, 1322822218, 1537002063, 1747873779, 1955562222, 2024104815, 2227730452, 2361852424, 2428436474, 2756734187, 3204031479, 3329325298]

/-- SHA-256 initial hash state. -/
def shaH0 : List Nat := [1779033703, 3144134277, 1013904242, 2773480762, 1359893119, 2600822924, 528734635, 1541459225]

/-- Extend a 16-word block to the 64-word message schedule (fuel 48); the
accumulator is kept in reverse order so each new word reads positions
`t-2, t-7, t-15, t-16` near its head. -/
def extendScheduleRev : Nat → List Nat → List Nat
  | 0, acc => acc
  | k+1, acc =>
      extendScheduleRev k
        (add32 (add32 (smallSig1 (acc.getD 1 0)) (acc.getD 6 0))
               (add32 (smallSig0 (acc.getD 14 0)) (acc.getD 15 0)) :: acc)

/-- The 64 SHA-256 compression rounds; the working state is carried in the
eight registers `a..h` and the list holds the remaining values `K[t] + W[t]`
(round constant plus schedule word). -/
def compressRounds : List Nat → Nat → Nat → Nat → Nat → Nat → Nat → Nat → Nat → List Nat
  | [], a, b, c, d, e, f, g, h => [a, b, c, d, e, f, g, h]
  | kw :: rest, a, b, c, d, e, f, g, h =>
      let t1 := add32 h (add32 (bigSig1 e) (add32 (shaCh e f g) kw))
      let t2 := add32 (bigSig0 a) (shaMaj a b c)
      compressRounds rest (add32 t1 t2) a b c (add32 d t1) e f g

/-- Compress one 16-word block into the hash state. -/
def compressBlock (h block : List Nat) : List Nat :=
  let ws := (extendScheduleRev 48 block.reverse).reverse
  let kws := List.zipWith add32 shaK ws
  List.zipWith add32 h
    (compressRounds kws (h.getD 0 0) (h.getD 1 0) (h.getD 2 0) (h.getD 3 0)
      (h.getD 4 0) (h.getD 5 0) (h.getD 6 0) (h.getD 7 0))

/-- Serialize a 32-bit word to 4 big-endian bytes. -/
def wordBE4 (w : Nat) : List Nat := [(w >>> 24) % 256, (w >>> 16) % 256, (w >>> 8) % 256, w % 256]

/-- Group bytes into big-endian 32-bit words. -/
def bytesToWordsBE : List Nat → List Nat
  | b0 :: b1 :: b2 :: b3 :: rest => (((b0 * 256 + b1) * 256 + b2) * 256 + b3) :: bytesToWordsBE rest
  | _ => []

/-- Iterate the compression function over all 16-word blocks (fuel = block count). -/
def sha256Blocks : Nat → List Nat → List Nat → List Nat
  | 0, h, _ => h
  | f+1, h, ws => sha256Blocks f (compressBlock h (ws.take 16)) (ws.drop 16)

/-- The bit length of the message as 8 big-endian bytes. -/
def lenBE8 (n : Nat) : List Nat := [(n >>> 56) % 256, (n >>> 48) % 256, (n >>> 40) % 256, (n >>> 32) % 256, (n >>> 24) % 256, (n >>> 16) % 256, (n >>> 8) % 256, n % 256]

/-- SHA-256 padding: append `0x80`, zeros to 56 mod 64, then the bit length. -/
def padMessage (msg : Bytes) : Bytes :=
  msg ++ 128 :: List.replicate ((119 - msg.length % 64) % 64) 0 ++ lenBE8 (8 * msg.length)

/-- Full SHA-256 of a byte string. -/
def sha256 (msg : Bytes) : Bytes :=
  let ws := bytesToWordsBE (padMessage msg)
  ((sha256Blocks (ws.length / 16) shaH0 ws).map wordBE4).flatten

example : sha256 [] = [227, 176, 196, 66, 152, 252, 28, 20, 154, 251, 244, 200, 153, 111, 185, 36, 39, 174, 65, 228, 100, 155, 147, 76, 164, 149, 153, 27, 120, 82, 184, 85] := by decide

example : sha256 [97, 98, 99] = [186, 120, 22, 191, 143, 1, 207, 234, 65, 65, 64, 222, 93, 174, 34, 35, 176, 3, 97, 163, 150, 23, 122, 156, 180, 16, 255, 97, 242, 0, 21, 173] := by decide

example : sha256 (List.replicate 100 0) = [205, 0, 226, 146, 197, 151, 13, 60, 94, 47, 15, 250, 81, 113, 229, 85, 188, 70, 191, 196, 250, 221, 251, 74, 65, 139, 104, 64, 184, 110, 121, 163] := by decide

/-! ## Hash utilities (`poseidon_utils.rs`)

The source's "Poseidon-style" utilities are SHA-256 with an ASCII
domain-separation prefix.  The prefixes are written as explicit byte
lists. -/

/-- ASCII bytes of the domain tag of `hash_merkle_node`. -/
def tagMerkleNode : Bytes := [117, 109, 98, 114, 97, 95, 109, 101, 114, 107, 108, 101, 95, 110, 111, 100, 101, 95, 118, 49]

/-- The `hash_merkle_node(left, right)`: SHA-256 of the domain tag and the two
child hashes (the `Result` in the source is always `Ok`). -/
def hash_merkle_node (left right : Bytes) : Bytes :=
  sha256 (tagMerkleNode ++ left ++ right)

/-- The all-zero 32-byte value (`[0u8; 32]`). -/
def zeroW : Bytes := List.replicate 32 0

/-! ## Incremental Merkle tree (`merkle_tree.rs`) -/

/-- The `MERKLE_TREE_DEPTH` from `merkle_tree.rs`. -/
def MERKLE_TREE_DEPTH : Nat := 20

instance {ε α : Type} [DecidableEq ε] [DecidableEq α] : DecidableEq (Except ε α) := fun a b =>
  match a, b with
  | .ok x, .ok y =>
      if h : x = y then .isTrue (by rw [h]) else .isFalse (by intro hc; cases hc; exact h rfl)
  | .error x, .error y =>
      if h : x = y then .isTrue (by rw [h]) else .isFalse (by intro hc; cases hc; exact h rfl)
  | .ok _, .error _ => .isFalse (by intro hc; cases hc)
  | .error _, .ok _ => .isFalse (by intro hc; cases hc)

/-- Error codes of `merkle_tree.rs`. -/
inductive MerkleError where
  | MerkleTreeFull
  | InvalidLeafIndex
  | InvalidProofLength
  | ProofVerificationFailed
deriving DecidableEq, Repr

/-- The `MerkleTree` account state.  `u64` fields become `Nat` (their values
stay far below `2^64` in every reachable state); the two `Vec<[u8; 32]>`
fields become lists of byte strings. -/
structure MerkleTree where
  root : Bytes
  next_index : Nat
  filled_subtrees : List Bytes
  zero_hashes : List Bytes
  bump : Nat
deriving DecidableEq, Repr

/-- The zero-hash chain built by `initialize`'s loop: the returned list is
`[z, f z, f (f z), ...]` of the given length, where `f h = hash_merkle_node h h`. -/
def zeroChain : Nat → Bytes → List Bytes
  | 0, _ => []
  | k+1, z => z :: zeroChain k (hash_merkle_node z z)

/-- The `MerkleTree::initialize`: precompute the zero hashes, clear the filled
subtrees, set the root to `zero_hashes[DEPTH - 1]` and reset the index. -/
def MerkleTree.initialize (t : MerkleTree) : MerkleTree :=
  let zeros := zeroChain MERKLE_TREE_DEPTH zeroW
  { t with
    zero_hashes := zeros
    filled_subtrees := List.replicate MERKLE_TREE_DEPTH zeroW
    root := zeros.getD (MERKLE_TREE_DEPTH - 1) zeroW
    next_index := 0 }

/-- The freshly initialized tree, as built in the source's unit tests
(`MerkleTree { root: [0; 32], next_index: 0, ... }` then `initialize()`). -/
def initTree : MerkleTree :=
  MerkleTree.initialize ⟨zeroW, 0, [], [], 0⟩

/-- The climbing loop of `MerkleTree::insert`: `k` levels remain, `i` is the
current level, `ci` the current node position, `cur` the running hash and
`fs` the filled-subtree cache.  Returns the final hash (the new root) and
the updated cache. -/
def insertClimb (zeros : List Bytes) : Nat → Nat → Nat → Bytes → List Bytes → Bytes × List Bytes
  | 0, _, _, cur, fs => (cur, fs)
  | k+1, i, ci, cur, fs =>
      if ci % 2 = 0 then
        insertClimb zeros k (i+1) (ci / 2) (hash_merkle_node cur (zeros.getD i zeroW)) (fs.set i cur)
      else
        insertClimb zeros k (i+1) (ci / 2) (hash_merkle_node (fs.getD i zeroW) cur) fs

/-- One unfolding step of `insertClimb` at an even position. -/
theorem insertClimb_even (zeros : List Bytes) (k i ci : Nat) (cur : Bytes) (fs : List Bytes)
    (h : ci % 2 = 0) :
    insertClimb zeros (k+1) i ci cur fs =
      insertClimb zeros k (i+1) (ci / 2) (hash_merkle_node cur (zeros.getD i zeroW)) (fs.set i cur) := by
  rw [show insertClimb zeros (k+1) i ci cur fs =
      (if ci % 2 = 0 then
        insertClimb zeros k (i+1) (ci / 2) (hash_merkle_node cur (zeros.getD i zeroW)) (fs.set i cur)
      else
        insertClimb zeros k (i+1) (ci / 2) (hash_merkle_node (fs.getD i zeroW) cur) fs) from rfl,
    if_pos h]

/-- One unfolding step of `insertClimb` at an odd position. -/
theorem insertClimb_odd (zeros : List Bytes) (k i ci : Nat) (cur : Bytes) (fs : List Bytes)
    (h : ¬ ci % 2 = 0) :
    insertClimb zeros (k+1) i ci cur fs =
      insertClimb zeros k (i+1) (ci / 2) (hash_merkle_node (fs.getD i zeroW) cur) fs := by
  rw [show insertClimb zeros (k+1) i ci cur fs =
      (if ci % 2 = 0 then
        insertClimb zeros k (i+1) (ci / 2) (hash_merkle_node cur (zeros.getD i zeroW)) (fs.set i cur)
      else
        insertClimb zeros k (i+1) (ci / 2) (hash_merkle_node (fs.getD i zeroW) cur) fs) from rfl,
    if_neg h]

/-- The `MerkleTree::insert`: reject when the tree is full, otherwise climb the
tree updating `filled_subtrees`, store the new root, bump `next_index` and
return the index of the inserted leaf.  The state component of the result is
the (unchanged) input tree in the error case, mirroring `&mut self`. -/
def MerkleTree.insert (t : MerkleTree) (leaf : Bytes) : MerkleTree × Except MerkleError Nat :=
  if t.next_index < 2 ^ MERKLE_TREE_DEPTH then
    let rfs := insertClimb t.zero_hashes MERKLE_TREE_DEPTH 0 t.next_index leaf t.filled_subtrees
    ({ t with root := rfs.1, filled_subtrees := rfs.2, next_index := t.next_index + 1 },
     .ok t.next_index)
  else
    (t, .error .MerkleTreeFull)

/-- The path-building loop of `MerkleTree::get_proof` (`k` levels remain,
`i` current level, `ci` current position). -/
def proofLoop (t : MerkleTree) : Nat → Nat → Nat → List Bytes
  | 0, _, _ => []
  | k+1, i, ci =>
      (if ci % 2 = 0 then
        if ci + 1 < t.next_index >>> i then t.filled_subtrees.getD i zeroW
        else t.zero_hashes.getD i zeroW
      else t.filled_subtrees.getD i zeroW) :: proofLoop t k (i+1) (ci / 2)

/-- The `MerkleTree::get_proof`: fail with `InvalidLeafIndex` unless
`index < next_index`, otherwise return the `DEPTH` sibling hashes. -/
def MerkleTree.get_proof (t : MerkleTree) (index : Nat) : Except MerkleError (List Bytes) :=
  if index < t.next_index then
    .ok (proofLoop t MERKLE_TREE_DEPTH 0 index)
  else
    .error .InvalidLeafIndex

/-- The folding loop of `MerkleTree::verify_proof`: combine the running hash
with each sibling, ordering by the parity of the index at each level. -/
def verifyLoop : List Bytes → Nat → Bytes → Bytes
  | [], _, cur => cur
  | sib :: rest, ci, cur =>
      verifyLoop rest (ci / 2)
        (if ci % 2 = 0 then hash_merkle_node cur sib else hash_merkle_node sib cur)

/-- The `verifyLoop` on the empty path. -/
theorem verifyLoop_nil (ci : Nat) (cur : Bytes) : verifyLoop [] ci cur = cur := rfl

/-- One unfolding step of `verifyLoop` at an even index. -/
theorem verifyLoop_cons_even (sib : Bytes) (rest : List Bytes) (ci : Nat) (cur : Bytes)
    (h : ci % 2 = 0) :
    verifyLoop (sib :: rest) ci cur = verifyLoop rest (ci / 2) (hash_merkle_node cur sib) := by
  rw [show verifyLoop (sib :: rest) ci cur =
      verifyLoop rest (ci / 2)
        (if ci % 2 = 0 then hash_merkle_node cur sib else hash_merkle_node sib cur) from rfl,
    if_pos h]

/-- One unfolding step of `verifyLoop` at an odd index. -/
theorem verifyLoop_cons_odd (sib : Bytes) (rest : List Bytes) (ci : Nat) (cur : Bytes)
    (h : ¬ ci % 2 = 0) :
    verifyLoop (sib :: rest) ci cur = verifyLoop rest (ci / 2) (hash_merkle_node sib cur) := by
  rw [show verifyLoop (sib :: rest) ci cur =
      verifyLoop rest (ci / 2)
        (if ci % 2 = 0 then hash_merkle_node cur sib else hash_merkle_node sib cur) from rfl,
    if_neg h]

/-- The `MerkleTree::verify_proof`: fail with `InvalidProofLength` unless the
proof has `DEPTH` entries, otherwise recompute the root and compare. -/
def MerkleTree.verify_proof (leaf : Bytes) (proof : List Bytes) (index : Nat) (root : Bytes) :
    Except MerkleError Bool :=
  if proof.length = MERKLE_TREE_DEPTH then
    .ok (decide (verifyLoop proof index leaf = root))
  else
    .error .InvalidProofLength

/-- The `MerkleTree::get_root`. -/
def MerkleTree.get_root (t : MerkleTree) : Bytes := t.root

/-- Run a sequence of `insert` calls, failing if any call fails. -/
def insertAll (t : MerkleTree) : List Bytes → Option MerkleTree
  | [] => some t
  | l :: ls =>
      match t.insert l with
      | (t', .ok _) => insertAll t' ls
      | (_, .error _) => none

/-! ## Reference full-tree semantics (from the specification's words)

`subtreeRoot ls i p` is the hash of the full binary subtree at level `i`,
position `p`, over the leaf list `ls`, where leaf slots beyond the list are
the all-zero leaf.  `subtreeRoot ls MERKLE_TREE_DEPTH 0` is "the hash of
the full tree of depth DEPTH where leaf slots ≥ next_index are treated as
repeated zero-hashes". -/
def subtreeRoot (ls : List Bytes) : Nat → Nat → Bytes
  | 0, p => ls.getD p zeroW
  | i+1, p => hash_merkle_node (subtreeRoot ls i (2 * p)) (subtreeRoot ls i (2 * p + 1))

/-- The zero-subtree hash at each level:
`zsFn 0` is the all-zero leaf and `zsFn (i+1) = hash_node (zsFn i) (zsFn i)`. -/
def zsFn : Nat → Bytes
  | 0 => zeroW
  | i+1 => hash_merkle_node (zsFn i) (zsFn i)

/-! ## Commitment tree and nullifier registry (`commitment.rs`) -/

/-- The `MAX_COMMITMENTS` from `commitment.rs`. -/
def MAX_COMMITMENTS : Nat := 100

/-- Error codes of `commitment.rs`. -/
inductive CommitmentError where
  | CommitmentTreeFull
  | NullifierAlreadyUsed
  | NullifierRegistryFull
  | InvalidMerkleProof
  | CommitmentNotFound
deriving DecidableEq, Repr

/-- The `CommitmentTree` account state (the `Pubkey` authority is a 32-byte
value; `u64` counters become `Nat` reduced mod `2^64` where the source wraps). -/
structure CommitmentTree where
  authority : Bytes
  commitments : List Bytes
  count : Nat
  root : Bytes
  bump : Nat
deriving DecidableEq, Repr

/-- The `CommitmentTree::compute_root`: all-zero root for an empty tree,
otherwise the first commitment (the source's simplified placeholder). -/
def CommitmentTree.compute_root (t : CommitmentTree) : CommitmentTree :=
  if t.commitments.isEmpty then { t with root := zeroW }
  else { t with root := t.commitments.getD 0 zeroW }

/-- The `CommitmentTree::add_commitment`: reject when full, otherwise push the
commitment, bump the count (wrapping `u64` addition), recompute the root
and return the new count minus one. -/
def CommitmentTree.add_commitment (t : CommitmentTree) (c : Bytes) :
    CommitmentTree × Except CommitmentError Nat :=
  if t.commitments.length < MAX_COMMITMENTS then
    let t1 := { t with commitments := t.commitments ++ [c], count := (t.count + 1) % 2 ^ 64 }
    let t2 := t1.compute_root
    (t2, .ok (t2.count - 1))
  else
    (t, .error .CommitmentTreeFull)

/-- The `CommitmentTree::verify_membership`: the proof argument is ignored and
membership in `commitments` is checked directly. -/
def CommitmentTree.verify_membership (t : CommitmentTree) (commitment : Bytes)
    (_proof : List Bytes) : Bool :=
  t.commitments.contains commitment

/-- A `CommitmentTree` as freshly allocated: no commitments, zero count,
all-zero root. -/
def emptyCommitmentTree : CommitmentTree := ⟨zeroW, [], 0, zeroW, 0⟩

/-- Run a sequence of `add_commitment` calls, failing if any call fails. -/
def addAll (t : CommitmentTree) : List Bytes → Option CommitmentTree
  | [] => some t
  | c :: cs =>
      match t.add_commitment c with
      | (t', .ok _) => addAll t' cs
      | (_, .error _) => none

/-- The `NullifierRegistry` account state. -/
structure NullifierRegistry where
  authority : Bytes
  used_nullifiers : List Bytes
  count : Nat
  bump : Nat
deriving DecidableEq, Repr

/-- The `NullifierRegistry::MAX_NULLIFIERS` (equal to `MAX_COMMITMENTS`). -/
def MAX_NULLIFIERS : Nat := MAX_COMMITMENTS

/-- The `NullifierRegistry::is_used`. -/
def NullifierRegistry.is_used (r : NullifierRegistry) (nullifier : Bytes) : Bool :=
  r.used_nullifiers.contains nullifier

/-- The `NullifierRegistry::use_nullifier`: fail with `NullifierAlreadyUsed` when
present, with `NullifierRegistryFull` when at capacity, otherwise push the
nullifier and bump the count (wrapping `u64` addition). -/
def NullifierRegistry.use_nullifier (r : NullifierRegistry) (nullifier : Bytes) :
    NullifierRegistry × Except CommitmentError Unit :=
  if r.is_used nullifier then
    (r, .error .NullifierAlreadyUsed)
  else if r.used_nullifiers.length < MAX_NULLIFIERS then
    ({ r with used_nullifiers := r.used_nullifiers ++ [nullifier],
              count := (r.count + 1) % 2 ^ 64 }, .ok ())
  else
    (r, .error .NullifierRegistryFull)

/-! ## Denomination pools (`denomination.rs`) -/

/-- The error codes of `lib.rs` used by `denomination.rs`. -/
inductive PoolError where
  | InvalidDenomination
  | InsufficientPoolBalance
  | Overflow
  | Underflow
deriving DecidableEq, Repr

/-- The `u64::checked_add`. -/
def checked_add (a b : Nat) : Option Nat :=
  if a + b < 2 ^ 64 then some (a + b) else none

/-- The `u64::checked_sub`. -/
def checked_sub (a b : Nat) : Option Nat :=
  if b ≤ a then some (a - b) else none

/-- The `DenominationPool` account state. -/
structure DenominationPool where
  pool_id : Nat
  amount : Nat
  deposit_count : Nat
  claim_count : Nat
  total_deposited : Nat
  total_claimed : Nat
  bump : Nat
deriving DecidableEq, Repr

/-- The `DenominationPool::record_claim`: require a positive deposit count, then
decrement it, increment the claim count, and add the pool's fixed amount to
`total_claimed`, each with checked `u64` arithmetic.  A failing checked step
leaves the earlier field updates in place, exactly as the sequential
assignments with `?` do in the source. -/
def DenominationPool.record_claim (p : DenominationPool) :
    DenominationPool × Except PoolError Unit :=
  if 0 < p.deposit_count then
    match checked_sub p.deposit_count 1 with
    | none => (p, .error .Underflow)
    | some dc =>
        let p1 := { p with deposit_count := dc }
        match checked_add p1.claim_count 1 with
        | none => (p1, .error .Overflow)
        | some cc =>
            let p2 := { p1 with claim_count := cc }
            match checked_add p2.total_claimed p2.amount with
            | none => (p2, .error .Overflow)
            | some tc => ({ p2 with total_claimed := tc }, .ok ())
  else
    (p, .error .InsufficientPoolBalance)

/-! ## Stealth addresses (`stealth.rs`) -/


/-- ASCII bytes of `"stealth_ecdh_v1"`. -/
def Stealth.tagEcdh : Bytes := [115, 116, 101, 97, 108, 116, 104, 95, 101, 99, 100, 104, 95, 118, 49]

/-- ASCII bytes of `"stealth_derive_v1"`. -/
def Stealth.tagDerive : Bytes := [115, 116, 101, 97, 108, 116, 104, 95, 100, 101, 114, 105, 118, 101, 95, 118, 49]

/-- ASCII bytes of `"derive_pubkey_v1"`. -/
def Stealth.tagPubkey : Bytes := [100, 101, 114, 105, 118, 101, 95, 112, 117, 98, 107, 101, 121, 95, 118, 49]

/-- The `stealth.rs`'s `Stealth.compute_shared_secret`: SHA-256 of the domain tag, the
private key and the public key (never fails in the source). -/
def Stealth.compute_shared_secret (privkey pubkey : Bytes) : Bytes :=
  sha256 (Stealth.tagEcdh ++ privkey ++ pubkey)

/-- The `Stealth.derive_address_from_secret`: SHA-256 of the shared secret, the base
public key, and the domain tag (in that order). -/
def Stealth.derive_address_from_secret (shared_secret base_pubkey : Bytes) : Bytes :=
  sha256 (shared_secret ++ base_pubkey ++ Stealth.tagDerive)

/-- The `Stealth.derive_public_key`: SHA-256 of the domain tag and the private key. -/
def Stealth.derive_public_key (privkey : Bytes) : Bytes :=
  sha256 (Stealth.tagPubkey ++ privkey)

/-- The `Stealth.generate_stealth_address`: derive the shared secret from the ephemeral
private key and the recipient's encryption public key, derive the stealth
address from it and the spending key, and return it with the ephemeral
public key. -/
def Stealth.generate_stealth_address (recipient_encryption_pubkey : Bytes)
    (recipient_spending_pubkey : Bytes) (ephemeral_private_key : Bytes) :
    Bytes × Bytes :=
  (Stealth.derive_address_from_secret
      (Stealth.compute_shared_secret ephemeral_private_key recipient_encryption_pubkey)
      recipient_spending_pubkey,
   Stealth.derive_public_key ephemeral_private_key)

/-- The `Stealth.scan_commitment`: recompute the shared secret from the recipient's side
and compare the derived stealth address with the candidate. -/
def Stealth.scan_commitment (recipient_encryption_privkey : Bytes)
    (recipient_spending_pubkey : Bytes) (ephemeral_public_key : Bytes)
    (commitment_stealth_address : Bytes) : Bool :=
  decide (Stealth.derive_address_from_secret
      (Stealth.compute_shared_secret recipient_encryption_privkey ephemeral_public_key)
      recipient_spending_pubkey = commitment_stealth_address)



/-! ## Amount encryption (`encryption.rs`), with RFC 8439 ChaCha20 as
implemented by the `chacha20` crate the source calls -/


/-- ASCII bytes of `"ecdh_shared_v1"`. -/
def Encryption.tagEcdh : Bytes := [101, 99, 100, 104, 95, 115, 104, 97, 114, 101, 100, 95, 118, 49]

/-- ASCII bytes of `"amount_encryption_v1"`. -/
def Encryption.tagAmount : Bytes := [97, 109, 111, 117, 110, 116, 95, 101, 110, 99, 114, 121, 112, 116, 105, 111, 110, 95, 118, 49]

/-- The `encryption.rs`'s `Encryption.compute_shared_secret`: SHA-256 of the domain tag,
the private key and the public key. -/
def Encryption.compute_shared_secret (my_private_key their_public_key : Bytes) : Bytes :=
  sha256 (Encryption.tagEcdh ++ my_private_key ++ their_public_key)

/-- Left rotation of a 32-bit word (ChaCha20). -/
def Encryption.rotl32 (x n : Nat) : Nat := ((x <<< n) ||| (x >>> (32 - n))) % MASK32

/-- One ChaCha20 quarter round on state positions `ia ib ic id`. -/
def Encryption.quarterRound (st : List Nat) (ia ib ic id : Nat) : List Nat :=
  let a := add32 (st.getD ia 0) (st.getD ib 0)
  let d := Encryption.rotl32 ((st.getD id 0) ^^^ a) 16
  let c := add32 (st.getD ic 0) d
  let b := Encryption.rotl32 ((st.getD ib 0) ^^^ c) 12
  let a2 := add32 a b
  let d2 := Encryption.rotl32 (d ^^^ a2) 8
  let c2 := add32 c d2
  let b2 := Encryption.rotl32 (b ^^^ c2) 7
  ((((st.set ia a2).set ib b2).set ic c2).set id d2)

/-- One ChaCha20 double round (column round then diagonal round). -/
def Encryption.doubleRound (st : List Nat) : List Nat :=
  let s1 := Encryption.quarterRound (Encryption.quarterRound (Encryption.quarterRound (Encryption.quarterRound st 0 4 8 12) 1 5 9 13) 2 6 10 14) 3 7 11 15
  Encryption.quarterRound (Encryption.quarterRound (Encryption.quarterRound (Encryption.quarterRound s1 0 5 10 15) 1 6 11 12) 2 7 8 13) 3 4 9 14

/-- Iterate `Encryption.doubleRound` (10 times for ChaCha20). -/
def Encryption.chachaRounds : Nat → List Nat → List Nat
  | 0, st => st
  | n+1, st => Encryption.chachaRounds n (Encryption.doubleRound st)

/-- Group bytes into little-endian 32-bit words. -/
def Encryption.bytesToWordsLE : List Nat → List Nat
  | b0 :: b1 :: b2 :: b3 :: rest => (((b3 * 256 + b2) * 256 + b1) * 256 + b0) :: Encryption.bytesToWordsLE rest
  | _ => []

/-- Serialize a 32-bit word to 4 little-endian bytes. -/
def Encryption.wordLE4 (w : Nat) : List Nat := [w % 256, (w >>> 8) % 256, (w >>> 16) % 256, (w >>> 24) % 256]

/-- The ChaCha20 initial state: the `"expand 32-byte k"` constants, the
8 key words, the block counter, and the 3 nonce words. -/
def Encryption.chachaInit (key nonce : Bytes) (counter : Nat) : List Nat :=
  [1634760805, 857760878, 2036477234, 1797285236] ++ Encryption.bytesToWordsLE key ++ counter :: Encryption.bytesToWordsLE nonce

/-- One 64-byte ChaCha20 keystream block. -/
def Encryption.chachaBlock (key nonce : Bytes) (counter : Nat) : Bytes :=
  let st := Encryption.chachaInit key nonce counter
  ((List.zipWith add32 st (Encryption.chachaRounds 10 st)).map Encryption.wordLE4).flatten

/-- The first `n` ChaCha20 keystream bytes (the cipher starts at block
counter 0; only 8 bytes are ever consumed by the source). -/
def Encryption.chachaKeystream (key nonce : Bytes) (n : Nat) : Bytes :=
  (Encryption.chachaBlock key nonce 0).take n

/-- A `u64` as `k` little-endian bytes (`u64::to_le_bytes` with `k = 8`). -/
def Encryption.toLEBytes : Nat → Nat → Bytes
  | 0, _ => []
  | k+1, a => a % 256 :: Encryption.toLEBytes k (a / 256)

/-- Little-endian bytes back to a number (`u64::from_le_bytes`). -/
def Encryption.fromLEBytes : Bytes → Nat
  | [] => 0
  | b :: bs => b + 256 * Encryption.fromLEBytes bs

/-- The ChaCha20 key of `Encryption.encrypt_amount`/`Encryption.decrypt_amount`: SHA-256 of the
domain tag and the shared secret. -/
def Encryption.amountKey (shared_secret : Bytes) : Bytes :=
  sha256 (Encryption.tagAmount ++ shared_secret)

/-- The `Encryption.encrypt_amount`: XOR the little-endian amount bytes with the ChaCha20
keystream derived from the hashed shared secret and the nonce. -/
def Encryption.encrypt_amount (amount : Nat) (shared_secret nonce : Bytes) : Bytes :=
  List.zipWith Nat.xor (Encryption.toLEBytes 8 amount) (Encryption.chachaKeystream (Encryption.amountKey shared_secret) nonce 8)

/-- The `Encryption.decrypt_amount`: XOR the ciphertext with the same keystream and
reassemble the `u64`. -/
def Encryption.decrypt_amount (ciphertext : Bytes) (shared_secret nonce : Bytes) : Nat :=
  Encryption.fromLEBytes (List.zipWith Nat.xor ciphertext (Encryption.chachaKeystream (Encryption.amountKey shared_secret) nonce 8))


/-! ## Concrete evaluation layer

Literal values of the hash chains arising at the concrete inputs used by
the theorems below, each computed by a single small `decide` so that no
kernel evaluation ever has to chain hash calls. -/

/-- The leaf `[1u8; 32]` of the source's Merkle unit test. -/
def leafA : Bytes := List.replicate 32 1

/-- The leaf `[2u8; 32]` of the source's Merkle unit test. -/
def leafB : Bytes := List.replicate 32 2

/-- The leaf `[3u8; 32]` of the source's Merkle unit test. -/
def leafC : Bytes := List.replicate 32 3

/-- The level-1 zero-subtree hash. -/
def mzh1 : Bytes := [205, 125, 5, 101, 219, 78, 168, 142, 236, 117, 138, 21, 2, 168, 90, 197, 116, 22, 61, 169, 14, 26, 81, 127, 104, 134, 154, 250, 10, 236, 21, 91]

/-- The level-2 zero-subtree hash. -/
def mzh2 : Bytes := [173, 227, 116, 38, 240, 146, 180, 176, 106, 248, 214, 139, 132, 87, 137, 67, 21, 211, 12, 122, 242, 102, 66, 59, 215, 74, 35, 209, 20, 169, 109, 178]

/-- The level-3 zero-subtree hash. -/
def mzh3 : Bytes := [51, 202, 65, 171, 101, 55, 99, 124, 100, 252, 25, 149, 58, 194, 240, 156, 205, 4, 250, 143, 33, 170, 138, 222, 198, 60, 67, 126, 15, 158, 247, 202]

/-- The level-4 zero-subtree hash. -/
def mzh4 : Bytes := [37, 160, 84, 239, 212, 170, 32, 183, 100, 31, 113, 69, 105, 55, 75, 228, 216, 190, 39, 221, 150, 163, 173, 197, 19, 134, 238, 100, 226, 56, 21, 251]

/-- The level-5 zero-subtree hash. -/
def mzh5 : Bytes := [191, 139, 105, 141, 240, 239, 115, 73, 39, 165, 194, 173, 112, 81, 17, 56, 39, 204, 162, 161, 174, 65, 224, 183, 248, 130, 207, 54, 38, 227, 193, 205]

/-- The level-6 zero-subtree hash. -/
def mzh6 : Bytes := [73, 242, 186, 140, 253, 235, 33, 254, 13, 100, 236, 86, 157, 75, 46, 119, 164, 221, 88, 196, 55, 173, 217, 84, 117, 141, 234, 172, 42, 133, 27, 128]

/-- The level-7 zero-subtree hash. -/
def mzh7 : Bytes := [142, 45, 206, 96, 242, 218, 56, 217, 242, 111, 211, 107, 130, 19, 49, 103, 144, 198, 146, 62, 119, 99, 168, 25, 122, 207, 125, 5, 136, 145, 89, 147]

/-- The level-8 zero-subtree hash. -/
def mzh8 : Bytes := [163, 155, 134, 46, 189, 34, 187, 135, 45, 95, 113, 35, 5, 188, 33, 58, 146, 249, 14, 21, 94, 251, 241, 176, 58, 210, 91, 1, 170, 243, 66, 48]

/-- The level-9 zero-subtree hash. -/
def mzh9 : Bytes := [191, 120, 59, 183, 140, 129, 105, 99, 29, 12, 17, 75, 205, 151, 22, 40, 25, 62, 25, 116, 44, 149, 145, 55, 134, 218, 246, 178, 233, 105, 194, 111]

/-- The level-10 zero-subtree hash. -/
def mzh10 : Bytes := [172, 26, 199, 189, 245, 2, 130, 224, 71, 92, 63, 197, 190, 72, 20, 102, 78, 133, 78, 124, 122, 24, 152, 15, 42, 179, 66, 212, 232, 61, 145, 48]

/-- The level-11 zero-subtree hash. -/
def mzh11 : Bytes := [36, 136, 184, 5, 250, 168, 248, 106, 8, 130, 38, 218, 202, 205, 101, 44, 126, 66, 209, 169, 223, 101, 238, 136, 215, 103, 255, 106, 235, 215, 76, 96]

/-- The level-12 zero-subtree hash. -/
def mzh12 : Bytes := [103, 169, 125, 43, 160, 223, 92, 12, 78, 190, 215, 214, 231, 148, 45, 5, 29, 79, 131, 67, 125, 176, 79, 183, 81, 24, 199, 175, 103, 50, 162, 24]

/-- The level-13 zero-subtree hash. -/
def mzh13 : Bytes := [223, 150, 238, 104, 224, 182, 109, 29, 41, 20, 142, 199, 216, 159, 27, 33, 172, 9, 88, 120, 176, 70, 223, 213, 224, 177, 218, 38, 76, 113, 49, 232]

/-- The level-14 zero-subtree hash. -/
def mzh14 : Bytes := [179, 147, 185, 112, 204, 119, 119, 62, 61, 136, 49, 18, 30, 136, 44, 135, 44, 185, 172, 47, 75, 108, 196, 9, 93, 235, 209, 201, 69, 169, 63, 238]

/-- The level-15 zero-subtree hash. -/
def mzh15 : Bytes := [235, 69, 131, 74, 243, 160, 178, 179, 96, 244, 102, 101, 124, 162, 223, 123, 155, 76, 169, 11, 84, 252, 7, 232, 115, 30, 239, 143, 184, 210, 7, 26]

/-- The level-16 zero-subtree hash. -/
def mzh16 : Bytes := [48, 12, 90, 184, 244, 50, 157, 87, 14, 30, 88, 29, 242, 143, 29, 96, 23, 111, 83, 191, 232, 154, 202, 14, 48, 120, 79, 249, 219, 27, 204, 149]

/-- The level-17 zero-subtree hash. -/
def mzh17 : Bytes := [4, 227, 20, 244, 140, 110, 254, 28, 14, 159, 247, 247, 37, 188, 180, 33, 249, 138, 192, 216, 27, 182, 202, 76, 181, 129, 217, 63, 24, 161, 100, 59]

/-- The level-18 zero-subtree hash. -/
def mzh18 : Bytes := [65, 69, 124, 83, 15, 91, 80, 57, 107, 11, 240, 22, 58, 68, 188, 45, 233, 162, 185, 222, 226, 148, 11, 253, 79, 213, 109, 45, 154, 101, 176, 246]

/-- The level-19 zero-subtree hash. -/
def mzh19 : Bytes := [156, 2, 237, 148, 144, 200, 161, 43, 18, 3, 121, 150, 161, 80, 5, 26, 143, 5, 175, 190, 239, 238, 135, 162, 63, 107, 218, 35, 206, 45, 161, 144]

/-- The level-20 zero-subtree hash. -/
def mzh20 : Bytes := [132, 75, 133, 252, 190, 156, 245, 143, 126, 108, 186, 82, 23, 129, 58, 202, 85, 173, 39, 9, 18, 15, 4, 128, 6, 200, 94, 110, 7, 251, 213, 181]

theorem hev1 : hash_merkle_node zeroW zeroW = mzh1 := by decide

theorem hev2 : hash_merkle_node mzh1 mzh1 = mzh2 := by decide

theorem hev3 : hash_merkle_node mzh2 mzh2 = mzh3 := by decide

theorem hev4 : hash_merkle_node mzh3 mzh3 = mzh4 := by decide

theorem hev5 : hash_merkle_node mzh4 mzh4 = mzh5 := by decide

theorem hev6 : hash_merkle_node mzh5 mzh5 = mzh6 := by decide

theorem hev7 : hash_merkle_node mzh6 mzh6 = mzh7 := by decide

theorem hev8 : hash_merkle_node mzh7 mzh7 = mzh8 := by decide

theorem hev9 : hash_merkle_node mzh8 mzh8 = mzh9 := by decide

theorem hev10 : hash_merkle_node mzh9 mzh9 = mzh10 := by decide

theorem hev11 : hash_merkle_node mzh10 mzh10 = mzh11 := by decide

theorem hev12 : hash_merkle_node mzh11 mzh11 = mzh12 := by decide

theorem hev13 : hash_merkle_node mzh12 mzh12 = mzh13 := by decide

theorem hev14 : hash_merkle_node mzh13 mzh13 = mzh14 := by decide

theorem hev15 : hash_merkle_node mzh14 mzh14 = mzh15 := by decide

theorem hev16 : hash_merkle_node mzh15 mzh15 = mzh16 := by decide

theorem hev17 : hash_merkle_node mzh16 mzh16 = mzh17 := by decide

theorem hev18 : hash_merkle_node mzh17 mzh17 = mzh18 := by decide

theorem hev19 : hash_merkle_node mzh18 mzh18 = mzh19 := by decide

theorem hev20 : hash_merkle_node mzh19 mzh19 = mzh20 := by decide

/-- The `zero_hashes` vector built by `MerkleTree::initialize`. -/
def zeroHashesLit : List Bytes := [zeroW, mzh1, mzh2, mzh3, mzh4, mzh5, mzh6, mzh7, mzh8, mzh9, mzh10, mzh11, mzh12, mzh13, mzh14, mzh15, mzh16, mzh17, mzh18, mzh19]

theorem zeroChain_eval : zeroChain 20 zeroW = zeroHashesLit := by
  rw [show zeroChain 20 zeroW = zeroW :: zeroChain 19 (hash_merkle_node zeroW zeroW) from rfl,
      hev1,
      show zeroChain 19 mzh1 = mzh1 :: zeroChain 18 (hash_merkle_node mzh1 mzh1) from rfl,
      hev2,
      show zeroChain 18 mzh2 = mzh2 :: zeroChain 17 (hash_merkle_node mzh2 mzh2) from rfl,
      hev3,
      show zeroChain 17 mzh3 = mzh3 :: zeroChain 16 (hash_merkle_node mzh3 mzh3) from rfl,
      hev4,
      show zeroChain 16 mzh4 = mzh4 :: zeroChain 15 (hash_merkle_node mzh4 mzh4) from rfl,
      hev5,
      show zeroChain 15 mzh5 = mzh5 :: zeroChain 14 (hash_merkle_node mzh5 mzh5) from rfl,
      hev6,
      show zeroChain 14 mzh6 = mzh6 :: zeroChain 13 (hash_merkle_node mzh6 mzh6) from rfl,
      hev7,
      show zeroChain 13 mzh7 = mzh7 :: zeroChain 12 (hash_merkle_node mzh7 mzh7) from rfl,
      hev8,
      show zeroChain 12 mzh8 = mzh8 :: zeroChain 11 (hash_merkle_node mzh8 mzh8) from rfl,
      hev9,
      show zeroChain 11 mzh9 = mzh9 :: zeroChain 10 (hash_merkle_node mzh9 mzh9) from rfl,
      hev10,
      show zeroChain 10 mzh10 = mzh10 :: zeroChain 9 (hash_merkle_node mzh10 mzh10) from rfl,
      hev11,
      show zeroChain 9 mzh11 = mzh11 :: zeroChain 8 (hash_merkle_node mzh11 mzh11) from rfl,
      hev12,
      show zeroChain 8 mzh12 = mzh12 :: zeroChain 7 (hash_merkle_node mzh12 mzh12) from rfl,
      hev13,
      show zeroChain 7 mzh13 = mzh13 :: zeroChain 6 (hash_merkle_node mzh13 mzh13) from rfl,
      hev14,
      show zeroChain 6 mzh14 = mzh14 :: zeroChain 5 (hash_merkle_node mzh14 mzh14) from rfl,
      hev15,
      show zeroChain 5 mzh15 = mzh15 :: zeroChain 4 (hash_merkle_node mzh15 mzh15) from rfl,
      hev16,
      show zeroChain 4 mzh16 = mzh16 :: zeroChain 3 (hash_merkle_node mzh16 mzh16) from rfl,
      hev17,
      show zeroChain 3 mzh17 = mzh17 :: zeroChain 2 (hash_merkle_node mzh17 mzh17) from rfl,
      hev18,
      show zeroChain 2 mzh18 = mzh18 :: zeroChain 1 (hash_merkle_node mzh18 mzh18) from rfl,
      hev19,
      show zeroChain 1 mzh19 = mzh19 :: zeroChain 0 (hash_merkle_node mzh19 mzh19) from rfl,
      show zeroChain 0 (hash_merkle_node mzh19 mzh19) = ([] : List Bytes) from rfl]
  rfl

/-- The `filled_subtrees` vector of the freshly initialized tree. -/
def fsL0 : List Bytes := List.replicate 20 zeroW

/-- The freshly initialized tree, as a literal. -/
def treeLit0 : MerkleTree := ⟨mzh19, 0, fsL0, zeroHashesLit, 0⟩

theorem zget0 : zeroHashesLit.getD 0 zeroW = zeroW := by decide

theorem zget1 : zeroHashesLit.getD 1 zeroW = mzh1 := by decide

theorem zget2 : zeroHashesLit.getD 2 zeroW = mzh2 := by decide

theorem zget3 : zeroHashesLit.getD 3 zeroW = mzh3 := by decide

theorem zget4 : zeroHashesLit.getD 4 zeroW = mzh4 := by decide

theorem zget5 : zeroHashesLit.getD 5 zeroW = mzh5 := by decide

theorem zget6 : zeroHashesLit.getD 6 zeroW = mzh6 := by decide

theorem zget7 : zeroHashesLit.getD 7 zeroW = mzh7 := by decide

theorem zget8 : zeroHashesLit.getD 8 zeroW = mzh8 := by decide

theorem zget9 : zeroHashesLit.getD 9 zeroW = mzh9 := by decide

theorem zget10 : zeroHashesLit.getD 10 zeroW = mzh10 := by decide

theorem zget11 : zeroHashesLit.getD 11 zeroW = mzh11 := by decide

theorem zget12 : zeroHashesLit.getD 12 zeroW = mzh12 := by decide

theorem zget13 : zeroHashesLit.getD 13 zeroW = mzh13 := by decide

theorem zget14 : zeroHashesLit.getD 14 zeroW = mzh14 := by decide

theorem zget15 : zeroHashesLit.getD 15 zeroW = mzh15 := by decide

theorem zget16 : zeroHashesLit.getD 16 zeroW = mzh16 := by decide

theorem zget17 : zeroHashesLit.getD 17 zeroW = mzh17 := by decide

theorem zget18 : zeroHashesLit.getD 18 zeroW = mzh18 := by decide

theorem zget19 : zeroHashesLit.getD 19 zeroW = mzh19 := by decide

theorem initTree_eval : initTree = treeLit0 := by
  rw [show initTree = (⟨(zeroChain 20 zeroW).getD 19 zeroW, 0, List.replicate 20 zeroW,
        zeroChain 20 zeroW, 0⟩ : MerkleTree) from rfl, zeroChain_eval, zget19]
  rfl

def mh1 : Bytes := [93, 165, 182, 70, 175, 54, 82, 69, 194, 16, 56, 22, 99, 40, 217, 17, 49, 4, 96, 221, 86, 28, 122, 196, 200, 235, 41, 158, 134, 82, 174, 78]

theorem hev21 : hash_merkle_node leafA zeroW = mh1 := by decide

def mh2 : Bytes := [242, 87, 239, 61, 0, 40, 195, 27, 118, 124, 39, 124, 233, 107, 226, 219, 155, 22, 37, 198, 16, 246, 24, 22, 239, 202, 184, 200, 3, 59, 220, 191]

theorem hev22 : hash_merkle_node mh1 mzh1 = mh2 := by decide

def mh3 : Bytes := [113, 181, 221, 14, 185, 168, 194, 48, 244, 12, 52, 183, 119, 24, 165, 157, 164, 16, 77, 84, 152, 63, 45, 205, 176, 208, 196, 158, 129, 67, 188, 204]

theorem hev23 : hash_merkle_node mh2 mzh2 = mh3 := by decide

def mh4 : Bytes := [107, 94, 243, 233, 105, 124, 118, 200, 27, 86, 59, 2, 248, 231, 213, 191, 0, 168, 50, 77, 14, 83, 123, 109, 82, 146, 35, 76, 174, 251, 79, 71]

theorem hev24 : hash_merkle_node mh3 mzh3 = mh4 := by decide

def mh5 : Bytes := [224, 90, 200, 143, 137, 74, 243, 141, 65, 178, 71, 221, 155, 251, 207, 133, 170, 154, 24, 192, 96, 147, 42, 178, 230, 251, 116, 113, 107, 193, 250, 79]

theorem hev25 : hash_merkle_node mh4 mzh4 = mh5 := by decide

def mh6 : Bytes := [146, 184, 110, 98, 175, 174, 89, 39, 211, 6, 173, 57, 47, 8, 209, 79, 85, 54, 171, 68, 44, 215, 125, 6, 14, 178, 6, 137, 55, 169, 28, 247]

theorem hev26 : hash_merkle_node mh5 mzh5 = mh6 := by decide

def mh7 : Bytes := [11, 39, 13, 165, 179, 72, 46, 1, 23, 30, 231, 192, 146, 149, 220, 85, 46, 70, 224, 34, 221, 63, 179, 114, 229, 108, 110, 158, 106, 63, 111, 152]

theorem hev27 : hash_merkle_node mh6 mzh6 = mh7 := by decide

def mh8 : Bytes := [194, 244, 103, 234, 215, 145, 190, 201, 190, 170, 75, 150, 207, 24, 164, 58, 180, 184, 177, 231, 159, 244, 203, 145, 36, 176, 147, 58, 82, 38, 44, 216]

theorem hev28 : hash_merkle_node mh7 mzh7 = mh8 := by decide

def mh9 : Bytes := [48, 19, 169, 49, 237, 178, 253, 59, 236, 207, 147, 13, 90, 14, 181, 191, 14, 100, 28, 70, 94, 144, 97, 145, 134, 255, 150, 203, 81, 146, 95, 234]

theorem hev29 : hash_merkle_node mh8 mzh8 = mh9 := by decide

def mh10 : Bytes := [71, 243, 5, 206, 115, 101, 87, 246, 28, 125, 242, 197, 86, 67, 189, 56, 25, 5, 243, 87, 66, 153, 208, 157, 74, 65, 84, 177, 220, 241, 74, 88]

theorem hev30 : hash_merkle_node mh9 mzh9 = mh10 := by decide

def mh11 : Bytes := [42, 170, 133, 126, 11, 136, 140, 31, 213, 131, 135, 186, 202, 232, 26, 128, 181, 236, 183, 157, 122, 177, 37, 50, 233, 221, 37, 34, 150, 154, 16, 3]

theorem hev31 : hash_merkle_node mh10 mzh10 = mh11 := by decide

def mh12 : Bytes := [209, 14, 126, 209, 139, 38, 255, 130, 176, 254, 214, 164, 113, 110, 129, 71, 131, 137, 46, 21, 8, 244, 13, 246, 41, 70, 157, 81, 145, 124, 10, 34]

theorem hev32 : hash_merkle_node mh11 mzh11 = mh12 := by decide

def mh13 : Bytes := [133, 26, 221, 111, 231, 55, 239, 45, 119, 174, 183, 201, 221, 219, 1, 15, 191, 165, 254, 46, 56, 208, 217, 14, 94, 137, 129, 229, 125, 161, 133, 185]

theorem hev33 : hash_merkle_node mh12 mzh12 = mh13 := by decide

def mh14 : Bytes := [114, 115, 118, 65, 196, 123, 245, 80, 18, 181, 7, 224, 209, 155, 85, 154, 18, 159, 99, 74, 231, 201, 12, 232, 93, 16, 145, 195, 1, 28, 10, 207]

theorem hev34 : hash_merkle_node mh13 mzh13 = mh14 := by decide

def mh15 : Bytes := [190, 53, 227, 169, 96, 35, 31, 136, 54, 0, 49, 175, 108, 97, 202, 173, 171, 209, 49, 216, 42, 96, 86, 130, 242, 106, 229, 29, 254, 76, 178, 205]

theorem hev35 : hash_merkle_node mh14 mzh14 = mh15 := by decide

def mh16 : Bytes := [107, 242, 110, 245, 222, 89, 57, 54, 48, 36, 101, 38, 25, 24, 189, 137, 103, 39, 126, 109, 14, 250, 188, 223, 27, 48, 39, 155, 189, 114, 45, 36]

theorem hev36 : hash_merkle_node mh15 mzh15 = mh16 := by decide

def mh17 : Bytes := [242, 65, 150, 34, 255, 253, 193, 135, 239, 224, 79, 197, 158, 18, 145, 186, 41, 185, 170, 156, 25, 166, 25, 114, 191, 205, 46, 162, 254, 230, 168, 87]

theorem hev37 : hash_merkle_node mh16 mzh16 = mh17 := by decide

def mh18 : Bytes := [171, 226, 174, 153, 127, 175, 52, 209, 68, 104, 151, 11, 228, 11, 243, 149, 18, 156, 99, 141, 63, 244, 176, 81, 148, 57, 250, 116, 141, 161, 245, 110]

theorem hev38 : hash_merkle_node mh17 mzh17 = mh18 := by decide

def mh19 : Bytes := [167, 52, 135, 96, 195, 100, 195, 254, 210, 1, 70, 237, 139, 11, 183, 4, 167, 91, 239, 82, 151, 1, 195, 110, 37, 126, 89, 176, 28, 86, 255, 177]

theorem hev39 : hash_merkle_node mh18 mzh18 = mh19 := by decide

def mh20 : Bytes := [173, 30, 208, 166, 105, 122, 21, 178, 245, 158, 140, 97, 165, 8, 213, 195, 171, 91, 212, 113, 156, 247, 205, 40, 174, 77, 208, 82, 108, 160, 217, 192]

theorem hev40 : hash_merkle_node mh19 mzh19 = mh20 := by decide

/-- The `filled_subtrees` after 1 insertion(s). -/
def fsL1 : List Bytes := [leafA, mh1, mh2, mh3, mh4, mh5, mh6, mh7, mh8, mh9, mh10, mh11, mh12, mh13, mh14, mh15, mh16, mh17, mh18, mh19]

theorem fsfin0 : (((((((((((((((((((((fsL0.set 0 leafA).set 1 mh1).set 2 mh2).set 3 mh3).set 4 mh4).set 5 mh5).set 6 mh6).set 7 mh7).set 8 mh8).set 9 mh9).set 10 mh10).set 11 mh11).set 12 mh12).set 13 mh13).set 14 mh14).set 15 mh15).set 16 mh16).set 17 mh17).set 18 mh18).set 19 mh19) : List Bytes) = fsL1 := by decide

/-- The tree state after 1 insertion(s), as a literal. -/
def treeLit1 : MerkleTree := ⟨mh20, 1, fsL1, zeroHashesLit, 0⟩

theorem climb0 : insertClimb zeroHashesLit 20 0 0 leafA fsL0 = (mh20, fsL1) := by
  rw [insertClimb_even zeroHashesLit 19 0 0 leafA fsL0 rfl,
      zget0,
      hev21,
      insertClimb_even zeroHashesLit 18 1 0 mh1 (fsL0.set 0 leafA) rfl,
      zget1,
      hev22,
      insertClimb_even zeroHashesLit 17 2 0 mh2 ((fsL0.set 0 leafA).set 1 mh1) rfl,
      zget2,
      hev23,
      insertClimb_even zeroHashesLit 16 3 0 mh3 (((fsL0.set 0 leafA).set 1 mh1).set 2 mh2) rfl,
      zget3,
      hev24,
      insertClimb_even zeroHashesLit 15 4 0 mh4 ((((fsL0.set 0 leafA).set 1 mh1).set 2 mh2).set 3 mh3) rfl,
      zget4,
      hev25,
      insertClimb_even zeroHashesLit 14 5 0 mh5 (((((fsL0.set 0 leafA).set 1 mh1).set 2 mh2).set 3 mh3).set 4 mh4) rfl,
      zget5,
      hev26,
      insertClimb_even zeroHashesLit 13 6 0 mh6 ((((((fsL0.set 0 leafA).set 1 mh1).set 2 mh2).set 3 mh3).set 4 mh4).set 5 mh5) rfl,
      zget6,
      hev27,
      insertClimb_even zeroHashesLit 12 7 0 mh7 (((((((fsL0.set 0 leafA).set 1 mh1).set 2 mh2).set 3 mh3).set 4 mh4).set 5 mh5).set 6 mh6) rfl,
      zget7,
      hev28,
      insertClimb_even zeroHashesLit 11 8 0 mh8 ((((((((fsL0.set 0 leafA).set 1 mh1).set 2 mh2).set 3 mh3).set 4 mh4).set 5 mh5).set 6 mh6).set 7 mh7) rfl,
      zget8,
      hev29,
      insertClimb_even zeroHashesLit 10 9 0 mh9 (((((((((fsL0.set 0 leafA).set 1 mh1).set 2 mh2).set 3 mh3).set 4 mh4).set 5 mh5).set 6 mh6).set 7 mh7).set 8 mh8) rfl,
      zget9,
      hev30,
      insertClimb_even zeroHashesLit 9 10 0 mh10 ((((((((((fsL0.set 0 leafA).set 1 mh1).set 2 mh2).set 3 mh3).set 4 mh4).set 5 mh5).set 6 mh6).set 7 mh7).set 8 mh8).set 9 mh9) rfl,
      zget10,
      hev31,
      insertClimb_even zeroHashesLit 8 11 0 mh11 (((((((((((fsL0.set 0 leafA).set 1 mh1).set 2 mh2).set 3 mh3).set 4 mh4).set 5 mh5).set 6 mh6).set 7 mh7).set 8 mh8).set 9 mh9).set 10 mh10) rfl,
      zget11,
      hev32,
      insertClimb_even zeroHashesLit 7 12 0 mh12 ((((((((((((fsL0.set 0 leafA).set 1 mh1).set 2 mh2).set 3 mh3).set 4 mh4).set 5 mh5).set 6 mh6).set 7 mh7).set 8 mh8).set 9 mh9).set 10 mh10).set 11 mh11) rfl,
      zget12,
      hev33,
      insertClimb_even zeroHashesLit 6 13 0 mh13 (((((((((((((fsL0.set 0 leafA).set 1 mh1).set 2 mh2).set 3 mh3).set 4 mh4).set 5 mh5).set 6 mh6).set 7 mh7).set 8 mh8).set 9 mh9).set 10 mh10).set 11 mh11).set 12 mh12) rfl,
      zget13,
      hev34,
      insertClimb_even zeroHashesLit 5 14 0 mh14 ((((((((((((((fsL0.set 0 leafA).set 1 mh1).set 2 mh2).set 3 mh3).set 4 mh4).set 5 mh5).set 6 mh6).set 7 mh7).set 8 mh8).set 9 mh9).set 10 mh10).set 11 mh11).set 12 mh12).set 13 mh13) rfl,
      zget14,
      hev35,
      insertClimb_even zeroHashesLit 4 15 0 mh15 (((((((((((((((fsL0.set 0 leafA).set 1 mh1).set 2 mh2).set 3 mh3).set 4 mh4).set 5 mh5).set 6 mh6).set 7 mh7).set 8 mh8).set 9 mh9).set 10 mh10).set 11 mh11).set 12 mh12).set 13 mh13).set 14 mh14) rfl,
      zget15,
      hev36,
      insertClimb_even zeroHashesLit 3 16 0 mh16 ((((((((((((((((fsL0.set 0 leafA).set 1 mh1).set 2 mh2).set 3 mh3).set 4 mh4).set 5 mh5).set 6 mh6).set 7 mh7).set 8 mh8).set 9 mh9).set 10 mh10).set 11 mh11).set 12 mh12).set 13 mh13).set 14 mh14).set 15 mh15) rfl,
      zget16,
      hev37,
      insertClimb_even zeroHashesLit 2 17 0 mh17 (((((((((((((((((fsL0.set 0 leafA).set 1 mh1).set 2 mh2).set 3 mh3).set 4 mh4).set 5 mh5).set 6 mh6).set 7 mh7).set 8 mh8).set 9 mh9).set 10 mh10).set 11 mh11).set 12 mh12).set 13 mh13).set 14 mh14).set 15 mh15).set 16 mh16) rfl,
      zget17,
      hev38,
      insertClimb_even zeroHashesLit 1 18 0 mh18 ((((((((((((((((((fsL0.set 0 leafA).set 1 mh1).set 2 mh2).set 3 mh3).set 4 mh4).set 5 mh5).set 6 mh6).set 7 mh7).set 8 mh8).set 9 mh9).set 10 mh10).set 11 mh11).set 12 mh12).set 13 mh13).set 14 mh14).set 15 mh15).set 16 mh16).set 17 mh17) rfl,
      zget18,
      hev39,
      insertClimb_even zeroHashesLit 0 19 0 mh19 (((((((((((((((((((fsL0.set 0 leafA).set 1 mh1).set 2 mh2).set 3 mh3).set 4 mh4).set 5 mh5).set 6 mh6).set 7 mh7).set 8 mh8).set 9 mh9).set 10 mh10).set 11 mh11).set 12 mh12).set 13 mh13).set 14 mh14).set 15 mh15).set 16 mh16).set 17 mh17).set 18 mh18) rfl,
      zget19,
      hev40,
      show insertClimb zeroHashesLit 0 20 0 mh20 ((((((((((((((((((((fsL0.set 0 leafA).set 1 mh1).set 2 mh2).set 3 mh3).set 4 mh4).set 5 mh5).set 6 mh6).set 7 mh7).set 8 mh8).set 9 mh9).set 10 mh10).set 11 mh11).set 12 mh12).set 13 mh13).set 14 mh14).set 15 mh15).set 16 mh16).set 17 mh17).set 18 mh18).set 19 mh19) = (mh20, (((((((((((((((((((((fsL0.set 0 leafA).set 1 mh1).set 2 mh2).set 3 mh3).set 4 mh4).set 5 mh5).set 6 mh6).set 7 mh7).set 8 mh8).set 9 mh9).set 10 mh10).set 11 mh11).set 12 mh12).set 13 mh13).set 14 mh14).set 15 mh15).set 16 mh16).set 17 mh17).set 18 mh18).set 19 mh19) : List Bytes)) from rfl,
      fsfin0]

theorem insertStep0 : treeLit0.insert leafA = (treeLit1, Except.ok 0) := by
  rw [show treeLit0.insert leafA = ({treeLit0 with
        root := (insertClimb zeroHashesLit 20 0 0 leafA fsL0).1,
        filled_subtrees := (insertClimb zeroHashesLit 20 0 0 leafA fsL0).2,
        next_index := 1}, Except.ok 0) from rfl, climb0]
  rfl

theorem fsget1x0 : (fsL1).getD 0 zeroW = leafA := by decide

def mh21 : Bytes := [243, 97, 16, 217, 176, 215, 249, 215, 108, 222, 178, 34, 197, 46, 143, 150, 146, 155, 233, 255, 17, 234, 247, 42, 152, 19, 219, 170, 249, 73, 132, 37]

theorem hev41 : hash_merkle_node leafA leafB = mh21 := by decide

def mh22 : Bytes := [132, 185, 246, 43, 36, 229, 244, 10, 0, 83, 32, 59, 43, 66, 238, 239, 147, 46, 95, 33, 136, 149, 164, 46, 124, 35, 182, 118, 37, 79, 59, 213]

theorem hev42 : hash_merkle_node mh21 mzh1 = mh22 := by decide

def mh23 : Bytes := [157, 112, 24, 51, 195, 196, 31, 193, 164, 33, 84, 75, 214, 182, 53, 12, 4, 61, 64, 134, 156, 205, 89, 96, 223, 235, 206, 111, 192, 114, 73, 157]

theorem hev43 : hash_merkle_node mh22 mzh2 = mh23 := by decide

def mh24 : Bytes := [167, 54, 133, 86, 176, 7, 192, 107, 95, 157, 200, 123, 133, 83, 102, 29, 132, 4, 127, 90, 59, 110, 14, 173, 255, 124, 12, 103, 124, 98, 29, 44]

theorem hev44 : hash_merkle_node mh23 mzh3 = mh24 := by decide

def mh25 : Bytes := [41, 101, 93, 50, 156, 226, 104, 13, 207, 240, 14, 114, 48, 60, 130, 181, 24, 245, 176, 25, 165, 68, 116, 115, 109, 86, 72, 148, 207, 250, 76, 85]

theorem hev45 : hash_merkle_node mh24 mzh4 = mh25 := by decide

def mh26 : Bytes := [31, 40, 252, 98, 15, 66, 202, 252, 78, 194, 58, 121, 152, 224, 246, 177, 42, 199, 208, 150, 58, 7, 32, 241, 215, 35, 186, 205, 13, 134, 63, 128]

theorem hev46 : hash_merkle_node mh25 mzh5 = mh26 := by decide

def mh27 : Bytes := [33, 29, 101, 240, 235, 38, 146, 228, 95, 221, 207, 52, 199, 199, 73, 138, 37, 33, 29, 4, 129, 16, 33, 149, 229, 32, 87, 195, 120, 179, 238, 199]

theorem hev47 : hash_merkle_node mh26 mzh6 = mh27 := by decide

def mh28 : Bytes := [63, 8, 205, 115, 158, 122, 62, 185, 78, 98, 221, 36, 132, 166, 215, 153, 66, 50, 253, 118, 70, 70, 164, 181, 74, 175, 1, 115, 187, 168, 173, 120]

theorem hev48 : hash_merkle_node mh27 mzh7 = mh28 := by decide

def mh29 : Bytes := [55, 130, 253, 184, 239, 157, 234, 107, 206, 135, 96, 161, 21, 157, 197, 61, 56, 112, 111, 225, 155, 122, 240, 36, 15, 246, 205, 133, 133, 82, 42, 112]

theorem hev49 : hash_merkle_node mh28 mzh8 = mh29 := by decide

def mh30 : Bytes := [137, 191, 179, 63, 111, 179, 248, 88, 34, 169, 37, 19, 108, 53, 121, 78, 74, 24, 23, 166, 30, 65, 193, 170, 38, 181, 149, 189, 218, 169, 224, 205]

theorem hev50 : hash_merkle_node mh29 mzh9 = mh30 := by decide

def mh31 : Bytes := [69, 35, 246, 137, 243, 99, 16, 57, 221, 196, 6, 210, 180, 101, 105, 203, 23, 244, 221, 203, 218, 2, 43, 76, 134, 177, 219, 109, 221, 139, 70, 246]

theorem hev51 : hash_merkle_node mh30 mzh10 = mh31 := by decide

def mh32 : Bytes := [36, 144, 210, 21, 87, 241, 104, 45, 169, 183, 191, 195, 70, 220, 118, 252, 83, 134, 23, 192, 80, 241, 4, 47, 241, 157, 98, 29, 151, 136, 125, 166]

theorem hev52 : hash_merkle_node mh31 mzh11 = mh32 := by decide

def mh33 : Bytes := [18, 69, 208, 12, 61, 69, 176, 193, 55, 189, 237, 164, 148, 194, 16, 118, 66, 209, 68, 53, 2, 31, 231, 7, 124, 89, 168, 24, 222, 254, 79, 41]

theorem hev53 : hash_merkle_node mh32 mzh12 = mh33 := by decide

def mh34 : Bytes := [229, 61, 189, 161, 211, 3, 11, 175, 33, 172, 222, 78, 87, 222, 222, 71, 54, 235, 233, 33, 25, 119, 127, 97, 156, 249, 146, 91, 110, 230, 123, 84]

theorem hev54 : hash_merkle_node mh33 mzh13 = mh34 := by decide

def mh35 : Bytes := [238, 117, 17, 242, 25, 4, 80, 244, 22, 88, 135, 13, 169, 191, 176, 231, 214, 93, 69, 243, 249, 69, 199, 255, 183, 85, 243, 35, 107, 166, 197, 243]

theorem hev55 : hash_merkle_node mh34 mzh14 = mh35 := by decide

def mh36 : Bytes := [0, 168, 232, 95, 216, 234, 82, 224, 202, 192, 21, 54, 227, 238, 62, 5, 80, 54, 47, 137, 104, 75, 61, 22, 236, 159, 238, 190, 111, 253, 13, 53]

theorem hev56 : hash_merkle_node mh35 mzh15 = mh36 := by decide

def mh37 : Bytes := [104, 49, 135, 221, 179, 181, 99, 19, 206, 41, 77, 162, 249, 160, 213, 101, 8, 237, 81, 50, 172, 154, 189, 17, 235, 143, 239, 94, 122, 210, 15, 228]

theorem hev57 : hash_merkle_node mh36 mzh16 = mh37 := by decide

def mh38 : Bytes := [104, 96, 173, 56, 183, 162, 8, 217, 167, 66, 225, 48, 48, 26, 58, 7, 78, 166, 101, 136, 213, 44, 194, 43, 94, 169, 97, 208, 186, 169, 34, 51]

theorem hev58 : hash_merkle_node mh37 mzh17 = mh38 := by decide

def mh39 : Bytes := [42, 105, 208, 24, 14, 245, 218, 174, 193, 95, 156, 232, 178, 190, 221, 129, 142, 165, 172, 199, 159, 118, 175, 165, 86, 186, 180, 61, 120, 28, 197, 229]

theorem hev59 : hash_merkle_node mh38 mzh18 = mh39 := by decide

def mh40 : Bytes := [100, 15, 184, 155, 40, 124, 217, 32, 51, 82, 208, 106, 165, 105, 5, 7, 110, 104, 173, 107, 56, 175, 58, 141, 157, 6, 251, 235, 42, 64, 117, 237]

theorem hev60 : hash_merkle_node mh39 mzh19 = mh40 := by decide

/-- The `filled_subtrees` after 2 insertion(s). -/
def fsL2 : List Bytes := [leafA, mh21, mh22, mh23, mh24, mh25, mh26, mh27, mh28, mh29, mh30, mh31, mh32, mh33, mh34, mh35, mh36, mh37, mh38, mh39]

theorem fsfin1 : ((((((((((((((((((((fsL1.set 1 mh21).set 2 mh22).set 3 mh23).set 4 mh24).set 5 mh25).set 6 mh26).set 7 mh27).set 8 mh28).set 9 mh29).set 10 mh30).set 11 mh31).set 12 mh32).set 13 mh33).set 14 mh34).set 15 mh35).set 16 mh36).set 17 mh37).set 18 mh38).set 19 mh39) : List Bytes) = fsL2 := by decide

/-- The tree state after 2 insertion(s), as a literal. -/
def treeLit2 : MerkleTree := ⟨mh40, 2, fsL2, zeroHashesLit, 0⟩

theorem climb1 : insertClimb zeroHashesLit 20 0 1 leafB fsL1 = (mh40, fsL2) := by
  rw [insertClimb_odd zeroHashesLit 19 0 1 leafB fsL1 (by decide),
      fsget1x0,
      hev41,
      insertClimb_even zeroHashesLit 18 1 0 mh21 fsL1 rfl,
      zget1,
      hev42,
      insertClimb_even zeroHashesLit 17 2 0 mh22 (fsL1.set 1 mh21) rfl,
      zget2,
      hev43,
      insertClimb_even zeroHashesLit 16 3 0 mh23 ((fsL1.set 1 mh21).set 2 mh22) rfl,
      zget3,
      hev44,
      insertClimb_even zeroHashesLit 15 4 0 mh24 (((fsL1.set 1 mh21).set 2 mh22).set 3 mh23) rfl,
      zget4,
      hev45,
      insertClimb_even zeroHashesLit 14 5 0 mh25 ((((fsL1.set 1 mh21).set 2 mh22).set 3 mh23).set 4 mh24) rfl,
      zget5,
      hev46,
      insertClimb_even zeroHashesLit 13 6 0 mh26 (((((fsL1.set 1 mh21).set 2 mh22).set 3 mh23).set 4 mh24).set 5 mh25) rfl,
      zget6,
      hev47,
      insertClimb_even zeroHashesLit 12 7 0 mh27 ((((((fsL1.set 1 mh21).set 2 mh22).set 3 mh23).set 4 mh24).set 5 mh25).set 6 mh26) rfl,
      zget7,
      hev48,
      insertClimb_even zeroHashesLit 11 8 0 mh28 (((((((fsL1.set 1 mh21).set 2 mh22).set 3 mh23).set 4 mh24).set 5 mh25).set 6 mh26).set 7 mh27) rfl,
      zget8,
      hev49,
      insertClimb_even zeroHashesLit 10 9 0 mh29 ((((((((fsL1.set 1 mh21).set 2 mh22).set 3 mh23).set 4 mh24).set 5 mh25).set 6 mh26).set 7 mh27).set 8 mh28) rfl,
      zget9,
      hev50,
      insertClimb_even zeroHashesLit 9 10 0 mh30 (((((((((fsL1.set 1 mh21).set 2 mh22).set 3 mh23).set 4 mh24).set 5 mh25).set 6 mh26).set 7 mh27).set 8 mh28).set 9 mh29) rfl,
      zget10,
      hev51,
      insertClimb_even zeroHashesLit 8 11 0 mh31 ((((((((((fsL1.set 1 mh21).set 2 mh22).set 3 mh23).set 4 mh24).set 5 mh25).set 6 mh26).set 7 mh27).set 8 mh28).set 9 mh29).set 10 mh30) rfl,
      zget11,
      hev52,
      insertClimb_even zeroHashesLit 7 12 0 mh32 (((((((((((fsL1.set 1 mh21).set 2 mh22).set 3 mh23).set 4 mh24).set 5 mh25).set 6 mh26).set 7 mh27).set 8 mh28).set 9 mh29).set 10 mh30).set 11 mh31) rfl,
      zget12,
      hev53,
      insertClimb_even zeroHashesLit 6 13 0 mh33 ((((((((((((fsL1.set 1 mh21).set 2 mh22).set 3 mh23).set 4 mh24).set 5 mh25).set 6 mh26).set 7 mh27).set 8 mh28).set 9 mh29).set 10 mh30).set 11 mh31).set 12 mh32) rfl,
      zget13,
      hev54,
      insertClimb_even zeroHashesLit 5 14 0 mh34 (((((((((((((fsL1.set 1 mh21).set 2 mh22).set 3 mh23).set 4 mh24).set 5 mh25).set 6 mh26).set 7 mh27).set 8 mh28).set 9 mh29).set 10 mh30).set 11 mh31).set 12 mh32).set 13 mh33) rfl,
      zget14,
      hev55,
      insertClimb_even zeroHashesLit 4 15 0 mh35 ((((((((((((((fsL1.set 1 mh21).set 2 mh22).set 3 mh23).set 4 mh24).set 5 mh25).set 6 mh26).set 7 mh27).set 8 mh28).set 9 mh29).set 10 mh30).set 11 mh31).set 12 mh32).set 13 mh33).set 14 mh34) rfl,
      zget15,
      hev56,
      insertClimb_even zeroHashesLit 3 16 0 mh36 (((((((((((((((fsL1.set 1 mh21).set 2 mh22).set 3 mh23).set 4 mh24).set 5 mh25).set 6 mh26).set 7 mh27).set 8 mh28).set 9 mh29).set 10 mh30).set 11 mh31).set 12 mh32).set 13 mh33).set 14 mh34).set 15 mh35) rfl,
      zget16,
      hev57,
      insertClimb_even zeroHashesLit 2 17 0 mh37 ((((((((((((((((fsL1.set 1 mh21).set 2 mh22).set 3 mh23).set 4 mh24).set 5 mh25).set 6 mh26).set 7 mh27).set 8 mh28).set 9 mh29).set 10 mh30).set 11 mh31).set 12 mh32).set 13 mh33).set 14 mh34).set 15 mh35).set 16 mh36) rfl,
      zget17,
      hev58,
      insertClimb_even zeroHashesLit 1 18 0 mh38 (((((((((((((((((fsL1.set 1 mh21).set 2 mh22).set 3 mh23).set 4 mh24).set 5 mh25).set 6 mh26).set 7 mh27).set 8 mh28).set 9 mh29).set 10 mh30).set 11 mh31).set 12 mh32).set 13 mh33).set 14 mh34).set 15 mh35).set 16 mh36).set 17 mh37) rfl,
      zget18,
      hev59,
      insertClimb_even zeroHashesLit 0 19 0 mh39 ((((((((((((((((((fsL1.set 1 mh21).set 2 mh22).set 3 mh23).set 4 mh24).set 5 mh25).set 6 mh26).set 7 mh27).set 8 mh28).set 9 mh29).set 10 mh30).set 11 mh31).set 12 mh32).set 13 mh33).set 14 mh34).set 15 mh35).set 16 mh36).set 17 mh37).set 18 mh38) rfl,
      zget19,
      hev60,
      show insertClimb zeroHashesLit 0 20 0 mh40 (((((((((((((((((((fsL1.set 1 mh21).set 2 mh22).set 3 mh23).set 4 mh24).set 5 mh25).set 6 mh26).set 7 mh27).set 8 mh28).set 9 mh29).set 10 mh30).set 11 mh31).set 12 mh32).set 13 mh33).set 14 mh34).set 15 mh35).set 16 mh36).set 17 mh37).set 18 mh38).set 19 mh39) = (mh40, ((((((((((((((((((((fsL1.set 1 mh21).set 2 mh22).set 3 mh23).set 4 mh24).set 5 mh25).set 6 mh26).set 7 mh27).set 8 mh28).set 9 mh29).set 10 mh30).set 11 mh31).set 12 mh32).set 13 mh33).set 14 mh34).set 15 mh35).set 16 mh36).set 17 mh37).set 18 mh38).set 19 mh39) : List Bytes)) from rfl,
      fsfin1]

theorem insertStep1 : treeLit1.insert leafB = (treeLit2, Except.ok 1) := by
  rw [show treeLit1.insert leafB = ({treeLit1 with
        root := (insertClimb zeroHashesLit 20 0 1 leafB fsL1).1,
        filled_subtrees := (insertClimb zeroHashesLit 20 0 1 leafB fsL1).2,
        next_index := 2}, Except.ok 1) from rfl, climb1]
  rfl

def mh41 : Bytes := [19, 44, 27, 209, 228, 18, 175, 101, 43, 252, 233, 235, 165, 105, 200, 51, 134, 125, 205, 133, 136, 130, 22, 145, 19, 120, 67, 59, 120, 228, 247, 229]

theorem hev61 : hash_merkle_node leafC zeroW = mh41 := by decide

theorem fsget2x1 : ((fsL2.set 0 leafC)).getD 1 zeroW = mh21 := by decide

def mh42 : Bytes := [189, 29, 171, 29, 30, 54, 40, 60, 56, 30, 19, 108, 247, 114, 42, 88, 66, 110, 43, 147, 171, 32, 17, 218, 110, 11, 143, 220, 13, 153, 5, 92]

theorem hev62 : hash_merkle_node mh21 mh41 = mh42 := by decide

def mh43 : Bytes := [30, 92, 177, 68, 167, 48, 105, 79, 156, 233, 38, 7, 65, 45, 188, 94, 217, 173, 151, 223, 250, 113, 192, 153, 241, 12, 177, 65, 216, 158, 153, 226]

theorem hev63 : hash_merkle_node mh42 mzh2 = mh43 := by decide

def mh44 : Bytes := [222, 140, 97, 206, 145, 107, 54, 200, 169, 235, 18, 137, 39, 23, 20, 215, 12, 31, 222, 96, 67, 58, 100, 129, 152, 65, 8, 180, 247, 255, 161, 220]

theorem hev64 : hash_merkle_node mh43 mzh3 = mh44 := by decide

def mh45 : Bytes := [128, 187, 164, 110, 82, 118, 23, 218, 43, 45, 11, 85, 8, 144, 44, 219, 78, 172, 158, 87, 180, 68, 176, 40, 219, 242, 243, 119, 117, 128, 208, 5]

theorem hev65 : hash_merkle_node mh44 mzh4 = mh45 := by decide

def mh46 : Bytes := [29, 144, 23, 232, 8, 117, 28, 243, 125, 84, 43, 54, 171, 234, 83, 144, 8, 23, 223, 146, 245, 118, 8, 254, 11, 163, 97, 242, 166, 94, 204, 68]

theorem hev66 : hash_merkle_node mh45 mzh5 = mh46 := by decide

def mh47 : Bytes := [41, 154, 172, 163, 220, 84, 191, 61, 41, 198, 111, 144, 88, 177, 12, 172, 208, 53, 23, 151, 193, 150, 115, 68, 225, 114, 97, 44, 107, 54, 168, 211]

theorem hev67 : hash_merkle_node mh46 mzh6 = mh47 := by decide

def mh48 : Bytes := [232, 88, 107, 88, 142, 69, 37, 216, 239, 245, 90, 181, 52, 55, 58, 9, 31, 68, 248, 31, 50, 88, 130, 61, 224, 220, 147, 77, 62, 202, 181, 54]

theorem hev68 : hash_merkle_node mh47 mzh7 = mh48 := by decide

def mh49 : Bytes := [226, 42, 215, 56, 188, 63, 13, 142, 229, 149, 114, 9, 227, 191, 250, 252, 46, 41, 198, 210, 191, 55, 212, 28, 170, 5, 81, 86, 162, 170, 26, 105]

theorem hev69 : hash_merkle_node mh48 mzh8 = mh49 := by decide

def mh50 : Bytes := [188, 31, 150, 169, 27, 56, 137, 31, 26, 66, 106, 225, 232, 201, 8, 186, 182, 164, 197, 217, 150, 43, 227, 231, 117, 156, 163, 164, 70, 137, 51, 229]

theorem hev70 : hash_merkle_node mh49 mzh9 = mh50 := by decide

def mh51 : Bytes := [78, 0, 136, 227, 4, 14, 218, 142, 134, 238, 184, 87, 51, 181, 107, 227, 83, 76, 212, 5, 251, 246, 253, 148, 220, 139, 116, 146, 41, 8, 251, 1]

theorem hev71 : hash_merkle_node mh50 mzh10 = mh51 := by decide

def mh52 : Bytes := [43, 125, 113, 61, 51, 222, 224, 103, 204, 224, 22, 167, 210, 2, 39, 172, 114, 85, 18, 155, 182, 144, 6, 124, 42, 187, 142, 173, 54, 176, 5, 225]

theorem hev72 : hash_merkle_node mh51 mzh11 = mh52 := by decide

def mh53 : Bytes := [233, 217, 235, 217, 208, 138, 230, 204, 36, 145, 54, 223, 236, 212, 136, 86, 96, 158, 149, 168, 219, 81, 152, 29, 133, 35, 240, 97, 28, 107, 236, 51]

theorem hev73 : hash_merkle_node mh52 mzh12 = mh53 := by decide

def mh54 : Bytes := [44, 243, 162, 59, 170, 180, 98, 209, 160, 66, 11, 39, 170, 63, 152, 30, 83, 172, 166, 73, 26, 10, 25, 129, 110, 132, 30, 204, 145, 82, 167, 106]

theorem hev74 : hash_merkle_node mh53 mzh13 = mh54 := by decide

def mh55 : Bytes := [16, 165, 13, 13, 109, 3, 231, 223, 50, 53, 30, 88, 147, 225, 49, 187, 6, 89, 237, 15, 49, 143, 93, 187, 227, 107, 188, 84, 144, 54, 246, 100]

theorem hev75 : hash_merkle_node mh54 mzh14 = mh55 := by decide

def mh56 : Bytes := [176, 207, 14, 254, 168, 243, 231, 164, 161, 164, 91, 160, 175, 179, 204, 172, 139, 244, 205, 57, 53, 147, 17, 31, 234, 51, 23, 55, 30, 165, 172, 72]

theorem hev76 : hash_merkle_node mh55 mzh15 = mh56 := by decide

def mh57 : Bytes := [119, 235, 239, 101, 67, 254, 62, 50, 0, 17, 48, 197, 111, 24, 39, 248, 136, 1, 57, 48, 32, 153, 253, 121, 118, 159, 227, 173, 134, 146, 202, 227]

theorem hev77 : hash_merkle_node mh56 mzh16 = mh57 := by decide

def mh58 : Bytes := [168, 4, 208, 173, 73, 166, 252, 93, 178, 31, 194, 9, 12, 240, 159, 114, 94, 79, 232, 28, 68, 41, 56, 33, 75, 87, 126, 232, 63, 109, 45, 75]

theorem hev78 : hash_merkle_node mh57 mzh17 = mh58 := by decide

def mh59 : Bytes := [229, 25, 52, 187, 186, 228, 31, 185, 74, 173, 137, 221, 72, 28, 136, 18, 109, 193, 176, 2, 239, 39, 90, 220, 55, 193, 174, 118, 171, 241, 61, 251]

theorem hev79 : hash_merkle_node mh58 mzh18 = mh59 := by decide

def mh60 : Bytes := [151, 246, 27, 47, 172, 143, 165, 168, 230, 154, 176, 141, 173, 210, 1, 23, 22, 16, 150, 37, 95, 244, 2, 82, 198, 172, 214, 162, 169, 179, 33, 116]

theorem hev80 : hash_merkle_node mh59 mzh19 = mh60 := by decide

/-- The `filled_subtrees` after 3 insertion(s). -/
def fsL3 : List Bytes := [leafC, mh21, mh42, mh43, mh44, mh45, mh46, mh47, mh48, mh49, mh50, mh51, mh52, mh53, mh54, mh55, mh56, mh57, mh58, mh59]

theorem fsfin2 : ((((((((((((((((((((fsL2.set 0 leafC).set 2 mh42).set 3 mh43).set 4 mh44).set 5 mh45).set 6 mh46).set 7 mh47).set 8 mh48).set 9 mh49).set 10 mh50).set 11 mh51).set 12 mh52).set 13 mh53).set 14 mh54).set 15 mh55).set 16 mh56).set 17 mh57).set 18 mh58).set 19 mh59) : List Bytes) = fsL3 := by decide

/-- The tree state after 3 insertion(s), as a literal. -/
def treeLit3 : MerkleTree := ⟨mh60, 3, fsL3, zeroHashesLit, 0⟩

theorem climb2 : insertClimb zeroHashesLit 20 0 2 leafC fsL2 = (mh60, fsL3) := by
  rw [insertClimb_even zeroHashesLit 19 0 2 leafC fsL2 rfl,
      zget0,
      hev61,
      insertClimb_odd zeroHashesLit 18 1 1 mh41 (fsL2.set 0 leafC) (by decide),
      fsget2x1,
      hev62,
      insertClimb_even zeroHashesLit 17 2 0 mh42 (fsL2.set 0 leafC) rfl,
      zget2,
      hev63,
      insertClimb_even zeroHashesLit 16 3 0 mh43 ((fsL2.set 0 leafC).set 2 mh42) rfl,
      zget3,
      hev64,
      insertClimb_even zeroHashesLit 15 4 0 mh44 (((fsL2.set 0 leafC).set 2 mh42).set 3 mh43) rfl,
      zget4,
      hev65,
      insertClimb_even zeroHashesLit 14 5 0 mh45 ((((fsL2.set 0 leafC).set 2 mh42).set 3 mh43).set 4 mh44) rfl,
      zget5,
      hev66,
      insertClimb_even zeroHashesLit 13 6 0 mh46 (((((fsL2.set 0 leafC).set 2 mh42).set 3 mh43).set 4 mh44).set 5 mh45) rfl,
      zget6,
      hev67,
      insertClimb_even zeroHashesLit 12 7 0 mh47 ((((((fsL2.set 0 leafC).set 2 mh42).set 3 mh43).set 4 mh44).set 5 mh45).set 6 mh46) rfl,
      zget7,
      hev68,
      insertClimb_even zeroHashesLit 11 8 0 mh48 (((((((fsL2.set 0 leafC).set 2 mh42).set 3 mh43).set 4 mh44).set 5 mh45).set 6 mh46).set 7 mh47) rfl,
      zget8,
      hev69,
      insertClimb_even zeroHashesLit 10 9 0 mh49 ((((((((fsL2.set 0 leafC).set 2 mh42).set 3 mh43).set 4 mh44).set 5 mh45).set 6 mh46).set 7 mh47).set 8 mh48) rfl,
      zget9,
      hev70,
      insertClimb_even zeroHashesLit 9 10 0 mh50 (((((((((fsL2.set 0 leafC).set 2 mh42).set 3 mh43).set 4 mh44).set 5 mh45).set 6 mh46).set 7 mh47).set 8 mh48).set 9 mh49) rfl,
      zget10,
      hev71,
      insertClimb_even zeroHashesLit 8 11 0 mh51 ((((((((((fsL2.set 0 leafC).set 2 mh42).set 3 mh43).set 4 mh44).set 5 mh45).set 6 mh46).set 7 mh47).set 8 mh48).set 9 mh49).set 10 mh50) rfl,
      zget11,
      hev72,
      insertClimb_even zeroHashesLit 7 12 0 mh52 (((((((((((fsL2.set 0 leafC).set 2 mh42).set 3 mh43).set 4 mh44).set 5 mh45).set 6 mh46).set 7 mh47).set 8 mh48).set 9 mh49).set 10 mh50).set 11 mh51) rfl,
      zget12,
      hev73,
      insertClimb_even zeroHashesLit 6 13 0 mh53 ((((((((((((fsL2.set 0 leafC).set 2 mh42).set 3 mh43).set 4 mh44).set 5 mh45).set 6 mh46).set 7 mh47).set 8 mh48).set 9 mh49).set 10 mh50).set 11 mh51).set 12 mh52) rfl,
      zget13,
      hev74,
      insertClimb_even zeroHashesLit 5 14 0 mh54 (((((((((((((fsL2.set 0 leafC).set 2 mh42).set 3 mh43).set 4 mh44).set 5 mh45).set 6 mh46).set 7 mh47).set 8 mh48).set 9 mh49).set 10 mh50).set 11 mh51).set 12 mh52).set 13 mh53) rfl,
      zget14,
      hev75,
      insertClimb_even zeroHashesLit 4 15 0 mh55 ((((((((((((((fsL2.set 0 leafC).set 2 mh42).set 3 mh43).set 4 mh44).set 5 mh45).set 6 mh46).set 7 mh47).set 8 mh48).set 9 mh49).set 10 mh50).set 11 mh51).set 12 mh52).set 13 mh53).set 14 mh54) rfl,
      zget15,
      hev76,
      insertClimb_even zeroHashesLit 3 16 0 mh56 (((((((((((((((fsL2.set 0 leafC).set 2 mh42).set 3 mh43).set 4 mh44).set 5 mh45).set 6 mh46).set 7 mh47).set 8 mh48).set 9 mh49).set 10 mh50).set 11 mh51).set 12 mh52).set 13 mh53).set 14 mh54).set 15 mh55) rfl,
      zget16,
      hev77,
      insertClimb_even zeroHashesLit 2 17 0 mh57 ((((((((((((((((fsL2.set 0 leafC).set 2 mh42).set 3 mh43).set 4 mh44).set 5 mh45).set 6 mh46).set 7 mh47).set 8 mh48).set 9 mh49).set 10 mh50).set 11 mh51).set 12 mh52).set 13 mh53).set 14 mh54).set 15 mh55).set 16 mh56) rfl,
      zget17,
      hev78,
      insertClimb_even zeroHashesLit 1 18 0 mh58 (((((((((((((((((fsL2.set 0 leafC).set 2 mh42).set 3 mh43).set 4 mh44).set 5 mh45).set 6 mh46).set 7 mh47).set 8 mh48).set 9 mh49).set 10 mh50).set 11 mh51).set 12 mh52).set 13 mh53).set 14 mh54).set 15 mh55).set 16 mh56).set 17 mh57) rfl,
      zget18,
      hev79,
      insertClimb_even zeroHashesLit 0 19 0 mh59 ((((((((((((((((((fsL2.set 0 leafC).set 2 mh42).set 3 mh43).set 4 mh44).set 5 mh45).set 6 mh46).set 7 mh47).set 8 mh48).set 9 mh49).set 10 mh50).set 11 mh51).set 12 mh52).set 13 mh53).set 14 mh54).set 15 mh55).set 16 mh56).set 17 mh57).set 18 mh58) rfl,
      zget19,
      hev80,
      show insertClimb zeroHashesLit 0 20 0 mh60 (((((((((((((((((((fsL2.set 0 leafC).set 2 mh42).set 3 mh43).set 4 mh44).set 5 mh45).set 6 mh46).set 7 mh47).set 8 mh48).set 9 mh49).set 10 mh50).set 11 mh51).set 12 mh52).set 13 mh53).set 14 mh54).set 15 mh55).set 16 mh56).set 17 mh57).set 18 mh58).set 19 mh59) = (mh60, ((((((((((((((((((((fsL2.set 0 leafC).set 2 mh42).set 3 mh43).set 4 mh44).set 5 mh45).set 6 mh46).set 7 mh47).set 8 mh48).set 9 mh49).set 10 mh50).set 11 mh51).set 12 mh52).set 13 mh53).set 14 mh54).set 15 mh55).set 16 mh56).set 17 mh57).set 18 mh58).set 19 mh59) : List Bytes)) from rfl,
      fsfin2]

theorem insertStep2 : treeLit2.insert leafC = (treeLit3, Except.ok 2) := by
  rw [show treeLit2.insert leafC = ({treeLit2 with
        root := (insertClimb zeroHashesLit 20 0 2 leafC fsL2).1,
        filled_subtrees := (insertClimb zeroHashesLit 20 0 2 leafC fsL2).2,
        next_index := 3}, Except.ok 2) from rfl, climb2]
  rfl

theorem tree3_eval : (((initTree.insert leafA).1.insert leafB).1.insert leafC).1 = treeLit3 := by
  rw [initTree_eval, insertStep0,
      show ((treeLit1, Except.ok 0) : MerkleTree × Except MerkleError Nat).1 = treeLit1 from rfl,
      insertStep1,
      show ((treeLit2, Except.ok 1) : MerkleTree × Except MerkleError Nat).1 = treeLit2 from rfl,
      insertStep2,
      show ((treeLit3, Except.ok 2) : MerkleTree × Except MerkleError Nat).1 = treeLit3 from rfl]

/-- The path returned by `get_proof(1)` after the three insertions. -/
def proofLit1 : List Bytes := [leafC, mzh1, mzh2, mzh3, mzh4, mzh5, mzh6, mzh7, mzh8, mzh9, mzh10, mzh11, mzh12, mzh13, mzh14, mzh15, mzh16, mzh17, mzh18, mzh19]

theorem getProof3_eval : treeLit3.get_proof 1 = Except.ok proofLit1 := by decide

def mh61 : Bytes := [26, 229, 8, 197, 98, 79, 210, 35, 218, 5, 17, 200, 87, 157, 180, 177, 129, 31, 161, 86, 1, 113, 22, 47, 15, 72, 235, 186, 128, 255, 235, 46]

theorem hev81 : hash_merkle_node leafC leafB = mh61 := by decide

def mh62 : Bytes := [179, 125, 88, 94, 178, 133, 164, 151, 55, 6, 129, 72, 174, 209, 76, 119, 138, 92, 23, 118, 111, 70, 87, 218, 193, 155, 196, 190, 206, 154, 112, 47]

theorem hev82 : hash_merkle_node mh61 mzh1 = mh62 := by decide

def mh63 : Bytes := [41, 27, 144, 20, 243, 207, 52, 83, 44, 254, 130, 193, 165, 145, 234, 88, 78, 219, 21, 158, 205, 133, 56, 108, 19, 217, 129, 165, 211, 157, 204, 251]

theorem hev83 : hash_merkle_node mh62 mzh2 = mh63 := by decide

def mh64 : Bytes := [120, 38, 9, 165, 109, 170, 119, 167, 27, 10, 20, 39, 45, 192, 129, 79, 212, 134, 205, 151, 11, 107, 206, 106, 253, 227, 76, 182, 217, 69, 53, 38]

theorem hev84 : hash_merkle_node mh63 mzh3 = mh64 := by decide

def mh65 : Bytes := [253, 53, 191, 32, 14, 41, 97, 115, 113, 80, 86, 187, 237, 90, 210, 145, 151, 79, 58, 247, 129, 97, 168, 218, 216, 54, 75, 218, 178, 114, 58, 119]

theorem hev85 : hash_merkle_node mh64 mzh4 = mh65 := by decide

def mh66 : Bytes := [80, 152, 200, 48, 86, 66, 51, 51, 131, 26, 118, 170, 118, 253, 229, 4, 137, 111, 51, 59, 234, 228, 229, 195, 148, 63, 71, 109, 41, 32, 204, 215]

theorem hev86 : hash_merkle_node mh65 mzh5 = mh66 := by decide

def mh67 : Bytes := [47, 24, 44, 107, 96, 120, 68, 107, 139, 221, 241, 184, 76, 44, 151, 21, 52, 178, 78, 3, 160, 164, 45, 10, 166, 208, 72, 105, 102, 42, 57, 251]

theorem hev87 : hash_merkle_node mh66 mzh6 = mh67 := by decide

def mh68 : Bytes := [15, 113, 117, 91, 101, 32, 190, 96, 187, 126, 243, 16, 44, 70, 131, 238, 220, 71, 218, 148, 220, 64, 48, 207, 213, 175, 234, 13, 9, 29, 22, 63]

theorem hev88 : hash_merkle_node mh67 mzh7 = mh68 := by decide

def mh69 : Bytes := [238, 135, 43, 103, 202, 35, 209, 42, 5, 183, 123, 185, 39, 250, 228, 192, 2, 36, 248, 63, 105, 3, 212, 130, 9, 248, 112, 92, 101, 1, 210, 206]

theorem hev89 : hash_merkle_node mh68 mzh8 = mh69 := by decide

def mh70 : Bytes := [204, 222, 40, 84, 183, 85, 249, 142, 219, 233, 248, 80, 239, 253, 199, 92, 16, 134, 9, 145, 205, 97, 207, 220, 136, 102, 167, 12, 236, 59, 91, 81]

theorem hev90 : hash_merkle_node mh69 mzh9 = mh70 := by decide

def mh71 : Bytes := [194, 152, 171, 106, 160, 68, 87, 37, 85, 52, 28, 125, 82, 149, 224, 174, 37, 143, 164, 239, 1, 230, 93, 43, 22, 155, 16, 68, 40, 235, 120, 245]

theorem hev91 : hash_merkle_node mh70 mzh10 = mh71 := by decide

def mh72 : Bytes := [217, 215, 82, 206, 183, 188, 114, 122, 125, 27, 73, 146, 179, 12, 126, 152, 144, 183, 108, 36, 52, 120, 137, 124, 169, 135, 25, 50, 103, 178, 93, 57]

theorem hev92 : hash_merkle_node mh71 mzh11 = mh72 := by decide

def mh73 : Bytes := [133, 226, 222, 57, 124, 36, 65, 54, 200, 155, 234, 238, 225, 161, 14, 153, 138, 183, 181, 112, 252, 13, 139, 195, 40, 194, 208, 5, 149, 78, 129, 165]

theorem hev93 : hash_merkle_node mh72 mzh12 = mh73 := by decide

def mh74 : Bytes := [97, 98, 190, 189, 72, 154, 58, 57, 71, 110, 184, 215, 110, 192, 182, 173, 66, 239, 20, 117, 86, 252, 147, 247, 9, 117, 79, 231, 70, 169, 176, 231]

theorem hev94 : hash_merkle_node mh73 mzh13 = mh74 := by decide

def mh75 : Bytes := [141, 152, 188, 68, 233, 155, 245, 68, 182, 189, 39, 44, 210, 169, 224, 169, 175, 159, 42, 232, 126, 143, 136, 15, 141, 39, 222, 225, 242, 49, 59, 205]

theorem hev95 : hash_merkle_node mh74 mzh14 = mh75 := by decide

def mh76 : Bytes := [66, 213, 32, 40, 85, 155, 105, 249, 236, 168, 41, 196, 20, 121, 186, 66, 126, 226, 193, 107, 194, 19, 43, 219, 150, 234, 248, 130, 3, 243, 48, 115]

theorem hev96 : hash_merkle_node mh75 mzh15 = mh76 := by decide

def mh77 : Bytes := [197, 208, 246, 69, 252, 160, 175, 46, 99, 80, 245, 149, 190, 111, 1, 1, 74, 166, 135, 26, 161, 71, 50, 248, 183, 229, 221, 93, 37, 40, 69, 53]

theorem hev97 : hash_merkle_node mh76 mzh16 = mh77 := by decide

def mh78 : Bytes := [168, 165, 136, 198, 39, 75, 32, 59, 192, 187, 244, 97, 208, 114, 53, 193, 219, 47, 181, 103, 80, 121, 110, 91, 247, 46, 93, 110, 147, 240, 1, 109]

theorem hev98 : hash_merkle_node mh77 mzh17 = mh78 := by decide

def mh79 : Bytes := [225, 39, 195, 253, 207, 57, 247, 169, 66, 21, 16, 232, 77, 195, 158, 182, 200, 197, 98, 116, 28, 170, 135, 56, 159, 182, 145, 219, 212, 105, 99, 228]

theorem hev99 : hash_merkle_node mh78 mzh18 = mh79 := by decide

def mh80 : Bytes := [176, 82, 116, 220, 227, 181, 205, 112, 170, 40, 253, 165, 142, 186, 215, 22, 162, 248, 235, 101, 103, 5, 230, 219, 63, 143, 117, 66, 66, 248, 246, 119]

theorem hev100 : hash_merkle_node mh79 mzh19 = mh80 := by decide

theorem verifyChain_eval : verifyLoop proofLit1 1 leafB = mh80 := by
  rw [show verifyLoop proofLit1 1 leafB = verifyLoop [leafC, mzh1, mzh2, mzh3, mzh4, mzh5, mzh6, mzh7, mzh8, mzh9, mzh10, mzh11, mzh12, mzh13, mzh14, mzh15, mzh16, mzh17, mzh18, mzh19] 1 leafB from rfl,
      verifyLoop_cons_odd leafC [mzh1, mzh2, mzh3, mzh4, mzh5, mzh6, mzh7, mzh8, mzh9, mzh10, mzh11, mzh12, mzh13, mzh14, mzh15, mzh16, mzh17, mzh18, mzh19] 1 leafB (by decide),
      hev81,
      verifyLoop_cons_even mzh1 [mzh2, mzh3, mzh4, mzh5, mzh6, mzh7, mzh8, mzh9, mzh10, mzh11, mzh12, mzh13, mzh14, mzh15, mzh16, mzh17, mzh18, mzh19] 0 mh61 rfl,
      hev82,
      verifyLoop_cons_even mzh2 [mzh3, mzh4, mzh5, mzh6, mzh7, mzh8, mzh9, mzh10, mzh11, mzh12, mzh13, mzh14, mzh15, mzh16, mzh17, mzh18, mzh19] 0 mh62 rfl,
      hev83,
      verifyLoop_cons_even mzh3 [mzh4, mzh5, mzh6, mzh7, mzh8, mzh9, mzh10, mzh11, mzh12, mzh13, mzh14, mzh15, mzh16, mzh17, mzh18, mzh19] 0 mh63 rfl,
      hev84,
      verifyLoop_cons_even mzh4 [mzh5, mzh6, mzh7, mzh8, mzh9, mzh10, mzh11, mzh12, mzh13, mzh14, mzh15, mzh16, mzh17, mzh18, mzh19] 0 mh64 rfl,
      hev85,
      verifyLoop_cons_even mzh5 [mzh6, mzh7, mzh8, mzh9, mzh10, mzh11, mzh12, mzh13, mzh14, mzh15, mzh16, mzh17, mzh18, mzh19] 0 mh65 rfl,
      hev86,
      verifyLoop_cons_even mzh6 [mzh7, mzh8, mzh9, mzh10, mzh11, mzh12, mzh13, mzh14, mzh15, mzh16, mzh17, mzh18, mzh19] 0 mh66 rfl,
      hev87,
      verifyLoop_cons_even mzh7 [mzh8, mzh9, mzh10, mzh11, mzh12, mzh13, mzh14, mzh15, mzh16, mzh17, mzh18, mzh19] 0 mh67 rfl,
      hev88,
      verifyLoop_cons_even mzh8 [mzh9, mzh10, mzh11, mzh12, mzh13, mzh14, mzh15, mzh16, mzh17, mzh18, mzh19] 0 mh68 rfl,
      hev89,
      verifyLoop_cons_even mzh9 [mzh10, mzh11, mzh12, mzh13, mzh14, mzh15, mzh16, mzh17, mzh18, mzh19] 0 mh69 rfl,
      hev90,
      verifyLoop_cons_even mzh10 [mzh11, mzh12, mzh13, mzh14, mzh15, mzh16, mzh17, mzh18, mzh19] 0 mh70 rfl,
      hev91,
      verifyLoop_cons_even mzh11 [mzh12, mzh13, mzh14, mzh15, mzh16, mzh17, mzh18, mzh19] 0 mh71 rfl,
      hev92,
      verifyLoop_cons_even mzh12 [mzh13, mzh14, mzh15, mzh16, mzh17, mzh18, mzh19] 0 mh72 rfl,
      hev93,
      verifyLoop_cons_even mzh13 [mzh14, mzh15, mzh16, mzh17, mzh18, mzh19] 0 mh73 rfl,
      hev94,
      verifyLoop_cons_even mzh14 [mzh15, mzh16, mzh17, mzh18, mzh19] 0 mh74 rfl,
      hev95,
      verifyLoop_cons_even mzh15 [mzh16, mzh17, mzh18, mzh19] 0 mh75 rfl,
      hev96,
      verifyLoop_cons_even mzh16 [mzh17, mzh18, mzh19] 0 mh76 rfl,
      hev97,
      verifyLoop_cons_even mzh17 [mzh18, mzh19] 0 mh77 rfl,
      hev98,
      verifyLoop_cons_even mzh18 [mzh19] 0 mh78 rfl,
      hev99,
      verifyLoop_cons_even mzh19 [] 0 mh79 rfl,
      hev100,
      verifyLoop_nil 0 mh80]

-- verification result comparison target: root3 = mh60, computed = mh80, equal: False

theorem zsFnEval0 : zsFn 0 = zeroW := rfl

theorem zsFnEval1 : zsFn 1 = mzh1 := by
  rw [show zsFn 1 = hash_merkle_node (zsFn 0) (zsFn 0) from rfl, zsFnEval0, hev1]

theorem zsFnEval2 : zsFn 2 = mzh2 := by
  rw [show zsFn 2 = hash_merkle_node (zsFn 1) (zsFn 1) from rfl, zsFnEval1, hev2]

theorem zsFnEval3 : zsFn 3 = mzh3 := by
  rw [show zsFn 3 = hash_merkle_node (zsFn 2) (zsFn 2) from rfl, zsFnEval2, hev3]

theorem zsFnEval4 : zsFn 4 = mzh4 := by
  rw [show zsFn 4 = hash_merkle_node (zsFn 3) (zsFn 3) from rfl, zsFnEval3, hev4]

theorem zsFnEval5 : zsFn 5 = mzh5 := by
  rw [show zsFn 5 = hash_merkle_node (zsFn 4) (zsFn 4) from rfl, zsFnEval4, hev5]

theorem zsFnEval6 : zsFn 6 = mzh6 := by
  rw [show zsFn 6 = hash_merkle_node (zsFn 5) (zsFn 5) from rfl, zsFnEval5, hev6]

theorem zsFnEval7 : zsFn 7 = mzh7 := by
  rw [show zsFn 7 = hash_merkle_node (zsFn 6) (zsFn 6) from rfl, zsFnEval6, hev7]

theorem zsFnEval8 : zsFn 8 = mzh8 := by
  rw [show zsFn 8 = hash_merkle_node (zsFn 7) (zsFn 7) from rfl, zsFnEval7, hev8]

theorem zsFnEval9 : zsFn 9 = mzh9 := by
  rw [show zsFn 9 = hash_merkle_node (zsFn 8) (zsFn 8) from rfl, zsFnEval8, hev9]

theorem zsFnEval10 : zsFn 10 = mzh10 := by
  rw [show zsFn 10 = hash_merkle_node (zsFn 9) (zsFn 9) from rfl, zsFnEval9, hev10]

theorem zsFnEval11 : zsFn 11 = mzh11 := by
  rw [show zsFn 11 = hash_merkle_node (zsFn 10) (zsFn 10) from rfl, zsFnEval10, hev11]

theorem zsFnEval12 : zsFn 12 = mzh12 := by
  rw [show zsFn 12 = hash_merkle_node (zsFn 11) (zsFn 11) from rfl, zsFnEval11, hev12]

theorem zsFnEval13 : zsFn 13 = mzh13 := by
  rw [show zsFn 13 = hash_merkle_node (zsFn 12) (zsFn 12) from rfl, zsFnEval12, hev13]

theorem zsFnEval14 : zsFn 14 = mzh14 := by
  rw [show zsFn 14 = hash_merkle_node (zsFn 13) (zsFn 13) from rfl, zsFnEval13, hev14]

theorem zsFnEval15 : zsFn 15 = mzh15 := by
  rw [show zsFn 15 = hash_merkle_node (zsFn 14) (zsFn 14) from rfl, zsFnEval14, hev15]

theorem zsFnEval16 : zsFn 16 = mzh16 := by
  rw [show zsFn 16 = hash_merkle_node (zsFn 15) (zsFn 15) from rfl, zsFnEval15, hev16]

theorem zsFnEval17 : zsFn 17 = mzh17 := by
  rw [show zsFn 17 = hash_merkle_node (zsFn 16) (zsFn 16) from rfl, zsFnEval16, hev17]

theorem zsFnEval18 : zsFn 18 = mzh18 := by
  rw [show zsFn 18 = hash_merkle_node (zsFn 17) (zsFn 17) from rfl, zsFnEval17, hev18]

theorem zsFnEval19 : zsFn 19 = mzh19 := by
  rw [show zsFn 19 = hash_merkle_node (zsFn 18) (zsFn 18) from rfl, zsFnEval18, hev19]

theorem zsFnEval20 : zsFn 20 = mzh20 := by
  rw [show zsFn 20 = hash_merkle_node (zsFn 19) (zsFn 19) from rfl, zsFnEval19, hev20]

/-- The recipient encryption private key `[3u8; 32]` of the source's scanning unit test. -/
def recPrivC2 : Bytes := List.replicate 32 3

/-- The ephemeral private key `[4u8; 32]` of the source's scanning unit test. -/
def ephPrivC2 : Bytes := List.replicate 32 4

/-- A concrete recipient spending public key. -/
def spendC2 : Bytes := List.replicate 32 9

def c2RecPub : Bytes := [44, 182, 160, 251, 42, 124, 69, 70, 87, 109, 93, 200, 205, 100, 140, 86, 65, 37, 24, 247, 158, 8, 251, 44, 149, 61, 34, 186, 203, 3, 195, 3]

def c2SsGen : Bytes := [79, 124, 215, 218, 17, 104, 30, 9, 254, 161, 8, 90, 144, 131, 69, 16, 102, 12, 129, 72, 114, 45, 35, 108, 142, 203, 104, 23, 193, 201, 80, 221]

def c2Stealth : Bytes := [220, 41, 247, 167, 206, 189, 40, 227, 75, 182, 83, 106, 239, 209, 133, 79, 150, 79, 58, 73, 16, 35, 76, 18, 47, 77, 48, 133, 211, 160, 37, 240]

def c2EphPub : Bytes := [214, 18, 137, 190, 103, 35, 85, 93, 240, 241, 92, 7, 120, 132, 45, 136, 79, 141, 4, 154, 170, 49, 140, 40, 235, 248, 245, 1, 28, 218, 248, 34]

def c2SsScan : Bytes := [66, 98, 154, 36, 253, 249, 13, 250, 203, 84, 126, 122, 39, 13, 249, 64, 164, 235, 33, 53, 97, 188, 231, 5, 165, 200, 47, 137, 54, 36, 52, 198]

def c2ScanAddr : Bytes := [251, 84, 109, 206, 164, 136, 62, 162, 33, 144, 242, 82, 42, 112, 146, 150, 88, 105, 180, 129, 232, 78, 84, 10, 84, 189, 251, 48, 122, 198, 192, 147]

theorem c2ev1 : Stealth.derive_public_key recPrivC2 = c2RecPub := by decide

theorem c2ev2 : Stealth.compute_shared_secret ephPrivC2 c2RecPub = c2SsGen := by decide

theorem c2ev3 : Stealth.derive_address_from_secret c2SsGen spendC2 = c2Stealth := by decide

theorem c2ev4 : Stealth.derive_public_key ephPrivC2 = c2EphPub := by decide

theorem c2ev5 : Stealth.compute_shared_secret recPrivC2 c2EphPub = c2SsScan := by decide

theorem c2ev6 : Stealth.derive_address_from_secret c2SsScan spendC2 = c2ScanAddr := by decide

-- scan address equals stealth address: False

/-- A first key-agreement private key. -/
def aPrivC3 : Bytes := List.replicate 32 1

/-- A second key-agreement private key. -/
def bPrivC3 : Bytes := List.replicate 32 2

def c3aPub : Bytes := [207, 46, 171, 41, 238, 4, 222, 146, 217, 201, 199, 57, 10, 177, 212, 15, 44, 9, 200, 140, 62, 117, 88, 177, 120, 146, 89, 15, 65, 89, 18, 246]

def c3bPub : Bytes := [49, 7, 10, 140, 210, 130, 141, 87, 97, 184, 143, 202, 43, 181, 89, 129, 186, 25, 143, 112, 93, 180, 127, 142, 242, 218, 255, 142, 76, 5, 208, 203]

def c3ssAB : Bytes := [61, 214, 225, 131, 128, 97, 224, 195, 45, 200, 133, 171, 31, 45, 61, 151, 96, 67, 200, 212, 124, 101, 158, 83, 107, 98, 51, 14, 92, 210, 197, 202]

def c3ssBA : Bytes := [153, 206, 64, 217, 50, 181, 118, 114, 116, 96, 230, 133, 152, 92, 255, 75, 89, 125, 42, 23, 61, 200, 151, 58, 130, 175, 23, 100, 197, 13, 94, 152]

theorem c3ev1 : Stealth.derive_public_key aPrivC3 = c3aPub := by decide

theorem c3ev2 : Stealth.derive_public_key bPrivC3 = c3bPub := by decide

theorem c3ev3 : Encryption.compute_shared_secret aPrivC3 c3bPub = c3ssAB := by decide

theorem c3ev4 : Encryption.compute_shared_secret bPrivC3 c3aPub = c3ssBA := by decide

-- shared secrets equal: False
/-! ## Claim theorems -/

/-- C1: For the incremental Merkle accumulator, the claim states that after
inserting leaves `L0..Ln`, `verify_proof(Li, get_proof(i), i, root)` returns
true for every `i ≤ n`.  The code refutes this on its own unit test
(`test_merkle_proof_verification`): after inserting the leaves
`[1u8; 32], [2u8; 32], [3u8; 32]`, the proof returned by `get_proof(1)` does
not verify for leaf `[2u8; 32]` at index 1 against the current root —
`verify_proof` returns `Ok(false)` where the test asserts `true`.  The cause:
`get_proof` reads `filled_subtrees[0]`, which by then holds the third leaf,
not the sibling `[1u8; 32]`. -/
theorem C1_get_proof_fails_on_repo_test :
    ∃ p, (((initTree.insert leafA).1.insert leafB).1.insert leafC).1.get_proof 1 = Except.ok p ∧
      MerkleTree.verify_proof leafB p 1
        (((initTree.insert leafA).1.insert leafB).1.insert leafC).1.get_root = Except.ok false := by
  refine ⟨proofLit1, ?_, ?_⟩
  · rw [tree3_eval]
    exact getProof3_eval
  · rw [tree3_eval, show treeLit3.get_root = mh60 from rfl,
        show MerkleTree.verify_proof leafB proofLit1 1 mh60 =
          Except.ok (decide (verifyLoop proofLit1 1 leafB = mh60)) from rfl,
        verifyChain_eval]
    decide

/-- C2: the claim states that for a matching ephemeral/recipient key pair,
`scan_commitment` applied to the output of `generate_stealth_address`
returns true.  The code refutes this on its own unit test inputs
(`test_commitment_scanning`: recipient encryption private key `[3u8; 32]`,
ephemeral private key `[4u8; 32]`): the sender-side shared secret hashes
`(ephemeral_priv, recipient_pub)` while the recipient-side one hashes
`(recipient_priv, ephemeral_pub)`, so the derived stealth addresses differ
and `scan_commitment` returns false where the test asserts true. -/
theorem C2_scan_commitment_fails_on_matching_pair :
    Stealth.generate_stealth_address (Stealth.derive_public_key recPrivC2) spendC2 ephPrivC2 =
      (c2Stealth, c2EphPub) ∧
    Stealth.scan_commitment recPrivC2 spendC2 c2EphPub c2Stealth = false := by
  constructor
  · rw [show Stealth.generate_stealth_address (Stealth.derive_public_key recPrivC2) spendC2
          ephPrivC2 =
        (Stealth.derive_address_from_secret
          (Stealth.compute_shared_secret ephPrivC2 (Stealth.derive_public_key recPrivC2)) spendC2,
         Stealth.derive_public_key ephPrivC2) from rfl,
      c2ev1, c2ev2, c2ev3, c2ev4]
  · rw [show Stealth.scan_commitment recPrivC2 spendC2 c2EphPub c2Stealth =
        decide (Stealth.derive_address_from_secret
          (Stealth.compute_shared_secret recPrivC2 c2EphPub) spendC2 = c2Stealth) from rfl,
      c2ev5, c2ev6]
    decide

/-- C3: the claim states `compute_shared_secret(a_priv, b_pub) ==
compute_shared_secret(b_priv, a_pub)` for matching key pairs.  The code
refutes this at the concrete pair `a_priv = [1u8; 32]`, `b_priv = [2u8; 32]`
(with each public key derived by `derive_public_key`): the function hashes
`(my_private, their_public)` in order, so the two sides hash different
byte strings and the results differ. -/
theorem C3_shared_secret_not_symmetric :
    Encryption.compute_shared_secret aPrivC3 (Stealth.derive_public_key bPrivC3) ≠
      Encryption.compute_shared_secret bPrivC3 (Stealth.derive_public_key aPrivC3) := by
  rw [c3ev1, c3ev2, c3ev3, c3ev4]
  decide

/-- C6: on any registry state with free capacity in which a nullifier is not
yet present, the first `use_nullifier` call succeeds and appends it, and a
second call on the resulting state fails with `NullifierAlreadyUsed` and
returns the state unchanged. -/
theorem C6_nullifier_double_spend :
    ∀ (r : NullifierRegistry) (h : Bytes), r.is_used h = false →
      r.used_nullifiers.length < MAX_NULLIFIERS →
      ∃ r', r.use_nullifier h = (r', .ok ()) ∧
        r'.used_nullifiers = r.used_nullifiers ++ [h] ∧
        r'.count = (r.count + 1) % 2 ^ 64 ∧
        r'.use_nullifier h = (r', .error .NullifierAlreadyUsed) := by
  intro r h hu hc
  have hnot : ¬ r.is_used h = true := by rw [hu]; exact Bool.false_ne_true
  refine ⟨{ r with used_nullifiers := r.used_nullifiers ++ [h], count := (r.count + 1) % 2 ^ 64 }, ?_, rfl, rfl, ?_⟩
  · unfold NullifierRegistry.use_nullifier
    rw [if_neg hnot, if_pos hc]
  · unfold NullifierRegistry.use_nullifier
    rw [if_pos ?hused]
    case hused =>
      show List.contains _ _ = true
      have : h ∈ r.used_nullifiers ++ [h] := List.mem_append_right _ (List.mem_singleton.mpr rfl)
      exact List.elem_iff.mpr this

/-- C6 witness: a concrete run on the empty registry. -/
theorem C6_nullifier_double_spend_witness :
    (⟨zeroW, [], 0, 0⟩ : NullifierRegistry).is_used leafA = false ∧
    (⟨zeroW, [], 0, 0⟩ : NullifierRegistry).used_nullifiers.length < MAX_NULLIFIERS ∧
    ∃ r', (⟨zeroW, [], 0, 0⟩ : NullifierRegistry).use_nullifier leafA = (r', .ok ()) ∧
      r'.used_nullifiers = (⟨zeroW, [], 0, 0⟩ : NullifierRegistry).used_nullifiers ++ [leafA] ∧
      r'.count = ((⟨zeroW, [], 0, 0⟩ : NullifierRegistry).count + 1) % 2 ^ 64 ∧
      r'.use_nullifier leafA = (r', .error .NullifierAlreadyUsed) :=
  ⟨by decide, by decide,
    C6_nullifier_double_spend ⟨zeroW, [], 0, 0⟩ leafA (by decide) (by decide)⟩

/-- C7: `insert` fails with `MerkleTreeFull` exactly when `next_index` has
reached `2 ^ DEPTH` (on any state within capacity), leaving the tree
unchanged in that case; below capacity it succeeds, assigns the index
`next_index`, and bumps `next_index` by one. -/
theorem C7_insert_capacity_boundary :
    ∀ (t : MerkleTree) (leaf : Bytes), t.next_index ≤ 2 ^ MERKLE_TREE_DEPTH →
      (((t.insert leaf).2 = .error .MerkleTreeFull) ↔
        t.next_index = 2 ^ MERKLE_TREE_DEPTH) ∧
      (t.next_index = 2 ^ MERKLE_TREE_DEPTH → t.insert leaf = (t, .error .MerkleTreeFull)) ∧
      (t.next_index < 2 ^ MERKLE_TREE_DEPTH →
        (t.insert leaf).2 = .ok t.next_index ∧
        (t.insert leaf).1.next_index = t.next_index + 1) := by
  intro t leaf hle
  unfold MerkleTree.insert
  by_cases hlt : t.next_index < 2 ^ MERKLE_TREE_DEPTH
  · rw [if_pos hlt]
    refine ⟨⟨fun hcontra => ?_, fun heq => ?_⟩, fun heq => ?_, fun _ => ⟨rfl, rfl⟩⟩
    · exact absurd hcontra (by simp)
    · omega
    · omega
  · rw [if_neg hlt]
    have heq : t.next_index = 2 ^ MERKLE_TREE_DEPTH := Nat.le_antisymm hle (Nat.le_of_not_lt hlt)
    exact ⟨⟨fun _ => heq, fun _ => rfl⟩, fun _ => rfl, fun hlt2 => absurd hlt2 hlt⟩

/-- C7 witness: the success clause on the freshly initialized tree and the
failure clause on a tree at capacity. -/
theorem C7_insert_capacity_boundary_witness :
    ((⟨zeroW, 2 ^ MERKLE_TREE_DEPTH, [], [], 0⟩ : MerkleTree).next_index ≤
        2 ^ MERKLE_TREE_DEPTH ∧
      ((((⟨zeroW, 2 ^ MERKLE_TREE_DEPTH, [], [], 0⟩ : MerkleTree).insert leafA).2 =
          .error .MerkleTreeFull) ↔
        (⟨zeroW, 2 ^ MERKLE_TREE_DEPTH, [], [], 0⟩ : MerkleTree).next_index =
          2 ^ MERKLE_TREE_DEPTH)) ∧
    (initTree.next_index ≤ 2 ^ MERKLE_TREE_DEPTH ∧
      (initTree.next_index < 2 ^ MERKLE_TREE_DEPTH →
        (initTree.insert leafA).2 = .ok initTree.next_index ∧
        (initTree.insert leafA).1.next_index = initTree.next_index + 1)) :=
  ⟨⟨by decide,
    (C7_insert_capacity_boundary ⟨zeroW, 2 ^ MERKLE_TREE_DEPTH, [], [], 0⟩ leafA (by decide)).1⟩,
   ⟨by rw [initTree_eval]; decide,
    (C7_insert_capacity_boundary initTree leafA (by rw [initTree_eval]; decide)).2.2⟩⟩

/-- C8: `record_claim` fails with `InsufficientPoolBalance` (the spec's
`InsufficientAnonymitySet`) exactly when `deposit_count = 0`, leaving the
pool unchanged; otherwise, absent `u64` counter overflow, it decrements
`deposit_count`, increments `claim_count`, adds the pool amount to
`total_claimed`, and leaves every other field unchanged. -/
theorem C8_record_claim_accounting :
    ∀ p : DenominationPool,
      ((p.record_claim.2 = .error .InsufficientPoolBalance) ↔ p.deposit_count = 0) ∧
      (p.deposit_count = 0 → p.record_claim = (p, .error .InsufficientPoolBalance)) ∧
      (0 < p.deposit_count → p.claim_count + 1 < 2 ^ 64 → p.total_claimed + p.amount < 2 ^ 64 →
        p.record_claim = ({ p with deposit_count := p.deposit_count - 1, claim_count := p.claim_count + 1, total_claimed := p.total_claimed + p.amount }, .ok ())) := by
  intro p
  by_cases hdc : 0 < p.deposit_count
  · have hz : ¬ p.deposit_count = 0 := by omega
    have hsub : checked_sub p.deposit_count 1 = some (p.deposit_count - 1) := by
      unfold checked_sub
      rw [if_pos (by omega : 1 ≤ p.deposit_count)]
    refine ⟨⟨fun hcontra => ?_, fun heq => absurd heq hz⟩, fun heq => absurd heq hz,
      fun _ hcc htc => ?_⟩
    · exfalso
      by_cases h1 : p.claim_count + 1 < 2 ^ 64
      · have hadd1 : checked_add p.claim_count 1 = some (p.claim_count + 1) := by
          unfold checked_add
          rw [if_pos h1]
        by_cases h2 : p.total_claimed + p.amount < 2 ^ 64
        · have hadd2 : checked_add p.total_claimed p.amount = some (p.total_claimed + p.amount) := by
            unfold checked_add
            rw [if_pos h2]
          simp only [DenominationPool.record_claim, if_pos hdc, hsub, hadd1, hadd2] at hcontra
          exact Except.noConfusion hcontra
        · have hadd2 : checked_add p.total_claimed p.amount = none := by
            unfold checked_add
            rw [if_neg h2]
          simp only [DenominationPool.record_claim, if_pos hdc, hsub, hadd1, hadd2] at hcontra
          simp at hcontra
      · have hadd1 : checked_add p.claim_count 1 = none := by
          unfold checked_add
          rw [if_neg h1]
        simp only [DenominationPool.record_claim, if_pos hdc, hsub, hadd1] at hcontra
        simp at hcontra
    · have hadd1 : checked_add p.claim_count 1 = some (p.claim_count + 1) := by
        unfold checked_add
        rw [if_pos hcc]
      have hadd2 : checked_add p.total_claimed p.amount = some (p.total_claimed + p.amount) := by
        unfold checked_add
        rw [if_pos htc]
      simp only [DenominationPool.record_claim, if_pos hdc, hsub, hadd1, hadd2]
  · have hz : p.deposit_count = 0 := by omega
    have hfail : p.record_claim = (p, .error .InsufficientPoolBalance) := by
      unfold DenominationPool.record_claim
      rw [if_neg hdc]
    exact ⟨⟨fun _ => hz, fun _ => by rw [hfail]⟩, fun _ => hfail,
      fun hpos => absurd hpos hdc⟩

/-- C8 witness: a concrete pool with three deposits recorded. -/
theorem C8_record_claim_accounting_witness :
    (0 < (⟨1, 500000000, 3, 0, 1500000000, 0, 255⟩ : DenominationPool).deposit_count ∧
      (⟨1, 500000000, 3, 0, 1500000000, 0, 255⟩ : DenominationPool).claim_count + 1 < 2 ^ 64 ∧
      (⟨1, 500000000, 3, 0, 1500000000, 0, 255⟩ : DenominationPool).total_claimed +
        (⟨1, 500000000, 3, 0, 1500000000, 0, 255⟩ : DenominationPool).amount < 2 ^ 64 ∧
      (⟨1, 500000000, 3, 0, 1500000000, 0, 255⟩ : DenominationPool).record_claim =
        ({ (⟨1, 500000000, 3, 0, 1500000000, 0, 255⟩ : DenominationPool) with
            deposit_count := 2, claim_count := 1, total_claimed := 500000000 }, .ok ())) ∧
    ((⟨0, 100000000, 0, 0, 0, 0, 255⟩ : DenominationPool).deposit_count = 0 ∧
      (⟨0, 100000000, 0, 0, 0, 0, 255⟩ : DenominationPool).record_claim =
        (⟨0, 100000000, 0, 0, 0, 0, 255⟩, .error .InsufficientPoolBalance)) :=
  ⟨⟨by decide, by decide, by decide, by
      have := (C8_record_claim_accounting ⟨1, 500000000, 3, 0, 1500000000, 0, 255⟩).2.2
        (by decide) (by decide) (by decide)
      exact this⟩,
   ⟨rfl, (C8_record_claim_accounting ⟨0, 100000000, 0, 0, 0, 0, 255⟩).2.1 rfl⟩⟩

/-- C9: `verify_membership` never inspects its proof argument, and returns
true exactly when the commitment occurs in the stored commitment list. -/
theorem C9_verify_membership_ignores_proof :
    ∀ (t : CommitmentTree) (c : Bytes) (p₁ p₂ : List Bytes),
      t.verify_membership c p₁ = t.verify_membership c p₂ ∧
      (t.verify_membership c p₁ = true ↔ c ∈ t.commitments) :=
  fun t c p₁ p₂ => ⟨rfl, List.elem_iff⟩

/-- A successful `add_commitment` appends the commitment, bumps the count,
and sets the root to the first stored commitment. -/
theorem add_commitment_succ (s : CommitmentTree) (c : Bytes)
    (h : s.commitments.length < MAX_COMMITMENTS) :
    s.add_commitment c =
      ({ s with commitments := s.commitments ++ [c], count := (s.count + 1) % 2 ^ 64, root := (s.commitments ++ [c]).getD 0 zeroW },
        .ok ((s.count + 1) % 2 ^ 64 - 1)) := by
  unfold CommitmentTree.add_commitment CommitmentTree.compute_root
  rw [if_pos h]
  simp only [List.isEmpty_iff]
  rw [if_neg (show ¬ (s.commitments ++ [c] = []) by simp)]

/-- The commitments and root reached by a successful `add_commitment`
sequence: the commitments are appended in order, and once any commitment is
present the root is the first element of the commitment list. -/
theorem addAll_commitments :
    ∀ (ls : List Bytes) (s t : CommitmentTree), addAll s ls = some t →
      t.commitments = s.commitments ++ ls ∧
      (ls ≠ [] → t.root = (s.commitments ++ ls).getD 0 zeroW) := by
  intro ls
  induction ls with
  | nil =>
    intro s t h
    simp only [addAll, Option.some.injEq] at h
    subst h
    exact ⟨by simp, fun hne => absurd rfl hne⟩
  | cons c cs ih =>
    intro s t h
    by_cases hlen : s.commitments.length < MAX_COMMITMENTS
    · rw [show addAll s (c :: cs) = (match s.add_commitment c with
          | (t', .ok _) => addAll t' cs
          | (_, .error _) => none) from rfl,
        add_commitment_succ s c hlen] at h
      have h' : addAll { s with commitments := s.commitments ++ [c], count := (s.count + 1) % 2 ^ 64, root := (s.commitments ++ [c]).getD 0 zeroW } cs = some t := h
      rcases ih _ t h' with ⟨hcomm, hroot⟩
      have harr : (s.commitments ++ [c]) ++ cs = s.commitments ++ (c :: cs) := by simp
      constructor
      · rw [hcomm]
        simpa using harr
      · intro _
        cases cs with
        | nil =>
          simp only [addAll, Option.some.injEq] at h'
          subst h'
          simp
        | cons c2 cs2 =>
          rw [hroot (by simp)]
          simp only
          rw [harr]
    · rw [show addAll s (c :: cs) = (match s.add_commitment c with
          | (t', .ok _) => addAll t' cs
          | (_, .error _) => none) from rfl,
        show s.add_commitment c = (s, .error .CommitmentTreeFull) from by
          unfold CommitmentTree.add_commitment
          rw [if_neg hlen]] at h
      exact absurd h (by simp)

/-- C10: in every state reachable from the empty commitment tree by
successful `add_commitment` calls, the stored root equals the first
commitment ever added. -/
theorem C10_commitment_root_is_first :
    ∀ (ls : List Bytes) (t : CommitmentTree),
      addAll emptyCommitmentTree ls = some t → 0 < ls.length →
      t.root = ls.getD 0 zeroW := by
  intro ls t h hpos
  have := (addAll_commitments ls emptyCommitmentTree t h).2
    (by intro hnil; subst hnil; simp at hpos)
  rw [this]
  rfl

/-- The commitment tree after adding two concrete commitments. -/
def ctLitC10 : CommitmentTree := ⟨zeroW, [mzh1, mzh2], 2, mzh1, 0⟩

/-- C10 witness: two concrete commitments added to the empty tree. -/
theorem C10_commitment_root_is_first_witness :
    addAll emptyCommitmentTree [mzh1, mzh2] = some ctLitC10 ∧ 0 < ([mzh1, mzh2] : List Bytes).length ∧
      ctLitC10.root = ([mzh1, mzh2] : List Bytes).getD 0 zeroW :=
  ⟨by decide, by decide,
    C10_commitment_root_is_first [mzh1, mzh2] ctLitC10 (by decide) (by decide)⟩

/-! ## C5: amount codec round trip -/

/-- XOR-ing the same keystream twice byte-by-byte is the identity. -/
theorem zipWith_xor_cancel :
    ∀ (p ks : List Nat), p.length ≤ ks.length →
      List.zipWith Nat.xor (List.zipWith Nat.xor p ks) ks = p := by
  intro p
  induction p with
  | nil => intro ks _; simp
  | cons a as ih =>
    intro ks hk
    cases ks with
    | nil => simp at hk
    | cons k kt =>
      simp only [List.zipWith_cons_cons, List.cons.injEq]
      exact ⟨Nat.xor_cancel_right k a, ih kt (by simpa using hk)⟩

/-- The `toLEBytes` produces exactly `k` bytes. -/
theorem toLEBytes_length : ∀ (k a : Nat), (Encryption.toLEBytes k a).length = k := by
  intro k
  induction k with
  | zero => intro a; rfl
  | succ n ih => intro a; simp [Encryption.toLEBytes, ih]

/-- Little-endian decoding inverts encoding, up to the width. -/
theorem fromLE_toLE : ∀ (k a : Nat),
    Encryption.fromLEBytes (Encryption.toLEBytes k a) = a % 256 ^ k := by
  intro k
  induction k with
  | zero => intro a; simp [Encryption.toLEBytes, Encryption.fromLEBytes, Nat.mod_one]
  | succ n ih =>
    intro a
    simp only [Encryption.toLEBytes, Encryption.fromLEBytes, ih]
    rw [show (256 : Nat) ^ (n + 1) = 256 * 256 ^ n from by rw [Nat.pow_succ, Nat.mul_comm]]
    exact Nat.mod_mul.symm

/-- A quarter round preserves the state length. -/
theorem length_quarterRound (st : List Nat) (ia ib ic id : Nat) :
    (Encryption.quarterRound st ia ib ic id).length = st.length := by
  simp [Encryption.quarterRound]

/-- A double round preserves the state length. -/
theorem length_doubleRound (st : List Nat) :
    (Encryption.doubleRound st).length = st.length := by
  simp [Encryption.doubleRound, length_quarterRound]

/-- The ChaCha20 round iteration preserves the state length. -/
theorem length_chachaRounds : ∀ (n : Nat) (st : List Nat),
    (Encryption.chachaRounds n st).length = st.length := by
  intro n
  induction n with
  | zero => intro st; rfl
  | succ m ih => intro st; rw [show Encryption.chachaRounds (m+1) st =
      Encryption.chachaRounds m (Encryption.doubleRound st) from rfl, ih, length_doubleRound]

/-- Serializing a word list gives four bytes per word. -/
theorem length_flatten_wordLE4 : ∀ l : List Nat,
    ((l.map Encryption.wordLE4).flatten).length = 4 * l.length := by
  intro l
  induction l with
  | nil => rfl
  | cons x xs ih =>
    simp only [List.map_cons, List.flatten_cons, List.length_append, ih, List.length_cons]
    simp [Encryption.wordLE4]
    omega

/-- A ChaCha20 block holds at least 8 bytes. -/
theorem chachaBlock_length_ge (key nonce : Bytes) (ctr : Nat) :
    8 ≤ (Encryption.chachaBlock key nonce ctr).length := by
  unfold Encryption.chachaBlock
  rw [length_flatten_wordLE4, List.length_zipWith, length_chachaRounds]
  simp only [Encryption.chachaInit, List.length_append, List.length_cons]
  omega

/-- The keystream used by the codec has exactly 8 bytes. -/
theorem chachaKeystream_length (key nonce : Bytes) :
    (Encryption.chachaKeystream key nonce 8).length = 8 := by
  unfold Encryption.chachaKeystream
  rw [List.length_take]
  exact Nat.min_eq_left (chachaBlock_length_ge key nonce 0)

/-- C5: for every 64-bit amount, 32-byte shared secret and 12-byte nonce,
`decrypt_amount` inverts `encrypt_amount`. -/
theorem C5_amount_codec_roundtrip :
    ∀ (a : Nat) (s n : Bytes), a < 2 ^ 64 → s.length = 32 → n.length = 12 →
      Encryption.decrypt_amount (Encryption.encrypt_amount a s n) s n = a := by
  intro a s n ha _ _
  unfold Encryption.encrypt_amount Encryption.decrypt_amount
  rw [zipWith_xor_cancel (Encryption.toLEBytes 8 a) _
      (by rw [toLEBytes_length, chachaKeystream_length]),
    fromLE_toLE]
  rw [show (256 : Nat) ^ 8 = 2 ^ 64 from by norm_num]
  exact Nat.mod_eq_of_lt ha

/-- C5 witness: a concrete amount, secret and nonce. -/
theorem C5_amount_codec_roundtrip_witness :
    (500000000 : Nat) < 2 ^ 64 ∧ (List.replicate 32 66 : Bytes).length = 32 ∧
      (List.replicate 12 1 : Bytes).length = 12 ∧
      Encryption.decrypt_amount
        (Encryption.encrypt_amount 500000000 (List.replicate 32 66) (List.replicate 12 1))
        (List.replicate 32 66) (List.replicate 12 1) = 500000000 :=
  ⟨by decide, by decide, by decide,
    C5_amount_codec_roundtrip 500000000 (List.replicate 32 66) (List.replicate 12 1)
      (by decide) (by decide) (by decide)⟩

/-! ## C4: the Merkle root invariant -/

/-- The `getD` after `set` at the same (in-range) index. -/
theorem getD_set_self : ∀ (l : List Bytes) (i : Nat) (a d : Bytes), i < l.length →
    (l.set i a).getD i d = a := by
  intro l
  induction l with
  | nil => intro i a d h; simp at h
  | cons x xs ih =>
    intro i a d h
    cases i with
    | zero => rfl
    | succ n => exact ih n a d (by simpa using h)

/-- The `getD` after `set` at a different index. -/
theorem getD_set_ne : ∀ (l : List Bytes) (i j : Nat) (a d : Bytes), i ≠ j →
    (l.set i a).getD j d = l.getD j d := by
  intro l
  induction l with
  | nil => intro i j a d _; rfl
  | cons x xs ih =>
    intro i j a d hne
    cases i with
    | zero =>
      cases j with
      | zero => exact absurd rfl hne
      | succ m => rfl
    | succ n =>
      cases j with
      | zero => rfl
      | succ m => exact ih n m a d (by omega)

/-- A number is below the next multiple of `2 ^ i` above it. -/
theorem lt_div_succ_mul (n i : Nat) : n < (n / 2 ^ i + 1) * 2 ^ i := by
  have h := Nat.div_add_mod n (2 ^ i)
  have hm : n % 2 ^ i < 2 ^ i := Nat.mod_lt _ (Nat.pos_pow_of_pos i (by omega))
  have e : (n / 2 ^ i + 1) * 2 ^ i = 2 ^ i * (n / 2 ^ i) + 2 ^ i := by ring
  omega

/-- A subtree whose leaf slots all lie beyond the leaf list is a zero subtree. -/
theorem subtree_zero : ∀ (i p : Nat) (ls : List Bytes), ls.length ≤ p * 2 ^ i →
    subtreeRoot ls i p = zsFn i := by
  intro i
  induction i with
  | zero =>
    intro p ls h
    show ls.getD p zeroW = zeroW
    exact List.getD_eq_default _ _ (by simpa using h)
  | succ n ih =>
    intro p ls h
    show hash_merkle_node (subtreeRoot ls n (2 * p)) (subtreeRoot ls n (2 * p + 1)) =
      hash_merkle_node (zsFn n) (zsFn n)
    have e : p * 2 ^ (n + 1) = 2 * p * 2 ^ n := by ring
    have e2 : 2 * p * 2 ^ n ≤ (2 * p + 1) * 2 ^ n := Nat.mul_le_mul_right _ (by omega)
    rw [ih (2 * p) ls (by omega), ih (2 * p + 1) ls (by omega)]

/-- A subtree fully contained in the leaf list is unchanged by appending. -/
theorem subtreeRoot_append : ∀ (i p : Nat) (ls extra : List Bytes),
    (p + 1) * 2 ^ i ≤ ls.length →
    subtreeRoot (ls ++ extra) i p = subtreeRoot ls i p := by
  intro i
  induction i with
  | zero =>
    intro p ls extra h
    show (ls ++ extra).getD p zeroW = ls.getD p zeroW
    exact List.getD_append _ _ _ _ (by simp at h; omega)
  | succ n ih =>
    intro p ls extra h
    show hash_merkle_node (subtreeRoot (ls ++ extra) n (2 * p))
        (subtreeRoot (ls ++ extra) n (2 * p + 1)) =
      hash_merkle_node (subtreeRoot ls n (2 * p)) (subtreeRoot ls n (2 * p + 1))
    have e : (p + 1) * 2 ^ (n + 1) = (2 * p + 1 + 1) * 2 ^ n := by ring
    have e2 : (2 * p + 1) * 2 ^ n ≤ (2 * p + 1 + 1) * 2 ^ n := Nat.mul_le_mul_right _ (by omega)
    rw [ih (2 * p) ls extra (by omega), ih (2 * p + 1) ls extra (by omega)]

/-- The climbing loop of `insert`, specified: starting at level `i` with the
running subtree hash of the just-appended leaf's path and a valid
filled-subtrees cache, it produces the new root and a cache valid for the
extended leaf list. -/
theorem climb_spec (ls : List Bytes) (leaf : Bytes) (zeros : List Bytes)
    (hz : ∀ j, j < MERKLE_TREE_DEPTH → zeros.getD j zeroW = zsFn j)
    (hn : ls.length < 2 ^ MERKLE_TREE_DEPTH) :
    ∀ (k : Nat), ∀ (i : Nat), i + k = MERKLE_TREE_DEPTH →
      ∀ (cur : Bytes) (fs : List Bytes),
      fs.length = MERKLE_TREE_DEPTH →
      cur = subtreeRoot (ls ++ [leaf]) i (ls.length / 2 ^ i) →
      (∀ j, i ≤ j → j < MERKLE_TREE_DEPTH → ls.length / 2 ^ j % 2 = 1 →
        fs.getD j zeroW = subtreeRoot ls j (ls.length / 2 ^ j - 1)) →
      (∀ j, j < i → (ls.length + 1) / 2 ^ j % 2 = 1 →
        fs.getD j zeroW = subtreeRoot (ls ++ [leaf]) j ((ls.length + 1) / 2 ^ j - 1)) →
      (insertClimb zeros k i (ls.length / 2 ^ i) cur fs).1 =
          subtreeRoot (ls ++ [leaf]) MERKLE_TREE_DEPTH 0 ∧
        (insertClimb zeros k i (ls.length / 2 ^ i) cur fs).2.length = MERKLE_TREE_DEPTH ∧
        (∀ j, j < MERKLE_TREE_DEPTH → (ls.length + 1) / 2 ^ j % 2 = 1 →
          (insertClimb zeros k i (ls.length / 2 ^ i) cur fs).2.getD j zeroW =
            subtreeRoot (ls ++ [leaf]) j ((ls.length + 1) / 2 ^ j - 1)) := by
  intro k
  induction k with
  | zero =>
    intro i hik cur fs hlen hcur hhi hlo
    have hi20 : i = MERKLE_TREE_DEPTH := by omega
    subst hi20
    refine ⟨?_, hlen, ?_⟩
    · show cur = _
      rw [hcur, Nat.div_eq_of_lt hn]
    · intro j hj hodd
      exact hlo j hj hodd
  | succ k ih =>
    intro i hik cur fs hlen hcur hhi hlo
    have hi20 : i < MERKLE_TREE_DEPTH := by omega
    have hdd : ls.length / 2 ^ i / 2 = ls.length / 2 ^ (i + 1) := by
      rw [Nat.div_div_eq_div_mul, Nat.pow_succ]
    have hub : (ls.length + 1) / 2 ^ i ≤ ls.length / 2 ^ i + 1 := by
      have h1 : (1 : Nat) ≤ 2 ^ i := Nat.one_le_two_pow
      calc (ls.length + 1) / 2 ^ i ≤ (ls.length + 2 ^ i) / 2 ^ i :=
            Nat.div_le_div_right (by omega)
        _ = ls.length / 2 ^ i + 1 := Nat.add_div_right _ (Nat.pos_pow_of_pos i (by omega))
    have hlb : ls.length / 2 ^ i ≤ (ls.length + 1) / 2 ^ i :=
      Nat.div_le_div_right (by omega)
    rcases Nat.mod_two_eq_zero_or_one (ls.length / 2 ^ i) with hpar | hpar
    · -- current node is a left child
      rw [insertClimb_even zeros k i (ls.length / 2 ^ i) cur fs hpar, hdd,
        hz i hi20]
      have h2q : 2 * (ls.length / 2 ^ (i + 1)) = ls.length / 2 ^ i := by
        rw [← hdd]; omega
      have hbound : (ls ++ [leaf]).length ≤ (ls.length / 2 ^ i + 1) * 2 ^ i := by
        rw [List.length_append]
        have := lt_div_succ_mul ls.length i
        simp only [List.length_cons, List.length_nil]
        omega
      have hcur' : hash_merkle_node cur (zsFn i) =
          subtreeRoot (ls ++ [leaf]) (i + 1) (ls.length / 2 ^ (i + 1)) := by
        rw [show subtreeRoot (ls ++ [leaf]) (i + 1) (ls.length / 2 ^ (i + 1)) =
            hash_merkle_node
              (subtreeRoot (ls ++ [leaf]) i (2 * (ls.length / 2 ^ (i + 1))))
              (subtreeRoot (ls ++ [leaf]) i (2 * (ls.length / 2 ^ (i + 1)) + 1)) from rfl,
          h2q, ← hcur,
          subtree_zero i (ls.length / 2 ^ i + 1) (ls ++ [leaf]) hbound]
      refine ih (i + 1) (by omega) (hash_merkle_node cur (zsFn i)) (fs.set i cur)
        (by rw [List.length_set]; exact hlen) hcur' ?_ ?_
      · -- levels above i are unchanged by the set
        intro j hij hj hodd
        rw [getD_set_ne fs i j cur zeroW (by omega)]
        exact hhi j (by omega) hj hodd
      · -- levels at or below i now satisfy the extended invariant
        intro j hj hodd
        by_cases hji : j = i
        · subst hji
          rw [getD_set_self fs j cur zeroW (by omega)]
          have hj1 : (ls.length + 1) / 2 ^ j = ls.length / 2 ^ j + 1 := by omega
          rw [hj1, Nat.add_sub_cancel, hcur]
        · rw [getD_set_ne fs i j cur zeroW (by omega)]
          exact hlo j (by omega) hodd
    · -- current node is a right child
      have hone : 1 ≤ ls.length / 2 ^ i := by
        cases Nat.eq_zero_or_pos (ls.length / 2 ^ i) with
        | inl h0 => rw [h0] at hpar; exact absurd hpar (by decide)
        | inr h1 => exact h1
      rw [insertClimb_odd zeros k i (ls.length / 2 ^ i) cur fs (by rw [hpar]; decide), hdd]
      have hfsi : fs.getD i zeroW = subtreeRoot ls i (ls.length / 2 ^ i - 1) :=
        hhi i (Nat.le_refl i) hi20 hpar
      have hstab : subtreeRoot (ls ++ [leaf]) i (ls.length / 2 ^ i - 1) =
          subtreeRoot ls i (ls.length / 2 ^ i - 1) := by
        refine subtreeRoot_append i (ls.length / 2 ^ i - 1) ls [leaf] ?_
        rw [show ls.length / 2 ^ i - 1 + 1 = ls.length / 2 ^ i from by omega]
        exact Nat.div_mul_le_self ls.length (2 ^ i)
      have h2q : 2 * (ls.length / 2 ^ (i + 1)) + 1 = ls.length / 2 ^ i := by
        rw [← hdd]; omega
      have hcur' : hash_merkle_node (fs.getD i zeroW) cur =
          subtreeRoot (ls ++ [leaf]) (i + 1) (ls.length / 2 ^ (i + 1)) := by
        rw [show subtreeRoot (ls ++ [leaf]) (i + 1) (ls.length / 2 ^ (i + 1)) =
            hash_merkle_node
              (subtreeRoot (ls ++ [leaf]) i (2 * (ls.length / 2 ^ (i + 1))))
              (subtreeRoot (ls ++ [leaf]) i (2 * (ls.length / 2 ^ (i + 1)) + 1)) from rfl,
          h2q, ← hcur, hfsi,
          show 2 * (ls.length / 2 ^ (i + 1)) = ls.length / 2 ^ i - 1 from by omega,
          hstab]
      refine ih (i + 1) (by omega) (hash_merkle_node (fs.getD i zeroW) cur) fs
        hlen hcur' ?_ ?_
      · intro j hij hj hodd
        exact hhi j (by omega) hj hodd
      · intro j hj hodd
        by_cases hji : j = i
        · subst hji
          have hj1 : (ls.length + 1) / 2 ^ j = ls.length / 2 ^ j := by omega
          rw [hj1, hfsi, ← hstab]
        · exact hlo j (by omega) hodd

/-- Iterating `h ↦ hash_node h h` from a seed, as `initialize`'s loop does. -/
def zsIter : Nat → Bytes → Bytes
  | 0, z => z
  | j+1, z => zsIter j (hash_merkle_node z z)

/-- The accumulator recursion can be peeled from the outside. -/
theorem zsIter_succ_outer : ∀ (j : Nat) (z : Bytes),
    zsIter (j + 1) z = hash_merkle_node (zsIter j z) (zsIter j z) := by
  intro j
  induction j with
  | zero => intro z; rfl
  | succ m ih =>
    intro z
    rw [show zsIter (m + 1 + 1) z = zsIter (m + 1) (hash_merkle_node z z) from rfl, ih,
      show zsIter (m + 1) z = zsIter m (hash_merkle_node z z) from rfl]

/-- The zero-subtree hashes are the iterates of the doubling hash. -/
theorem zsFn_eq_zsIter : ∀ j : Nat, zsFn j = zsIter j zeroW := by
  intro j
  induction j with
  | zero => rfl
  | succ m ih =>
    rw [show zsFn (m + 1) = hash_merkle_node (zsFn m) (zsFn m) from rfl, ih,
      zsIter_succ_outer]

/-- Elements of the zero-hash chain built by `initialize`. -/
theorem zeroChain_getD : ∀ (k : Nat) (z : Bytes) (j : Nat) (d : Bytes), j < k →
    (zeroChain k z).getD j d = zsIter j z := by
  intro k
  induction k with
  | zero => intro z j d h; omega
  | succ m ih =>
    intro z j d h
    cases j with
    | zero => rfl
    | succ jj => exact ih (hash_merkle_node z z) jj d (by omega)

/-- The state invariant tying a `MerkleTree` account to the list of leaves
inserted so far: the index counts the leaves, the zero-hash cache holds the
zero-subtree hashes, `filled_subtrees` holds the completed left siblings on
the next insertion path, and (once nonempty) the root is the full-tree hash. -/
def merkleInv (t : MerkleTree) (ls : List Bytes) : Prop :=
  t.next_index = ls.length ∧
  t.filled_subtrees.length = MERKLE_TREE_DEPTH ∧
  (∀ j, j < MERKLE_TREE_DEPTH → t.zero_hashes.getD j zeroW = zsFn j) ∧
  (∀ j, j < MERKLE_TREE_DEPTH → ls.length / 2 ^ j % 2 = 1 →
    t.filled_subtrees.getD j zeroW = subtreeRoot ls j (ls.length / 2 ^ j - 1)) ∧
  (ls ≠ [] → t.root = subtreeRoot ls MERKLE_TREE_DEPTH 0)

/-- A successful `insert` preserves the invariant, extending the leaf list. -/
theorem insert_preserves_inv (t : MerkleTree) (ls : List Bytes) (leaf : Bytes)
    (hinv : merkleInv t ls) (hlt : ls.length < 2 ^ MERKLE_TREE_DEPTH) :
    ∃ t', t.insert leaf = (t', .ok ls.length) ∧ merkleInv t' (ls ++ [leaf]) := by
  obtain ⟨hni, hflen, hz, hfs, _⟩ := hinv
  have e0 : ls.length / 2 ^ 0 = ls.length := by simp
  have hcur0 : leaf = subtreeRoot (ls ++ [leaf]) 0 (ls.length / 2 ^ 0) := by
    rw [e0]
    show leaf = (ls ++ [leaf]).getD ls.length zeroW
    rw [List.getD_append_right _ _ _ _ (Nat.le_refl _), Nat.sub_self]
    rfl
  have hstep := climb_spec ls leaf t.zero_hashes hz hlt MERKLE_TREE_DEPTH 0 (by omega)
    leaf t.filled_subtrees hflen hcur0
    (fun j _ hj hodd => hfs j hj hodd)
    (fun j hj _ => absurd hj (by omega))
  rw [e0] at hstep
  obtain ⟨hroot', hlen', hfs'⟩ := hstep
  refine ⟨{ t with
      root := (insertClimb t.zero_hashes MERKLE_TREE_DEPTH 0 ls.length leaf t.filled_subtrees).1,
      filled_subtrees :=
        (insertClimb t.zero_hashes MERKLE_TREE_DEPTH 0 ls.length leaf t.filled_subtrees).2,
      next_index := t.next_index + 1 }, ?_, ?_, ?_, hz, ?_, ?_⟩
  · unfold MerkleTree.insert
    rw [if_pos (by rw [hni]; exact hlt), hni]
  · show t.next_index + 1 = (ls ++ [leaf]).length
    rw [hni, List.length_append]
    rfl
  · exact hlen'
  · intro j hj hodd
    have := hfs' j hj (by simpa using hodd)
    simpa using this
  · intro _
    exact hroot'

/-- Chains of successful `insert` calls preserve the invariant. -/
theorem insertAll_inv : ∀ (ls2 ls1 : List Bytes) (t tf : MerkleTree),
    merkleInv t ls1 → insertAll t ls2 = some tf → merkleInv tf (ls1 ++ ls2) := by
  intro ls2
  induction ls2 with
  | nil =>
    intro ls1 t tf hinv h
    simp only [insertAll, Option.some.injEq] at h
    subst h
    simpa using hinv
  | cons l rest ih =>
    intro ls1 t tf hinv h
    by_cases hlt : ls1.length < 2 ^ MERKLE_TREE_DEPTH
    · obtain ⟨t', heq, hinv'⟩ := insert_preserves_inv t ls1 l hinv hlt
      rw [show insertAll t (l :: rest) = (match t.insert l with
          | (t', .ok _) => insertAll t' rest
          | (_, .error _) => none) from rfl, heq] at h
      have h' : insertAll t' rest = some tf := h
      have := ih (ls1 ++ [l]) t' tf hinv' h'
      simpa [List.append_assoc] using this
    · obtain ⟨hni, _, _, _, _⟩ := hinv
      rw [show insertAll t (l :: rest) = (match t.insert l with
          | (t', .ok _) => insertAll t' rest
          | (_, .error _) => none) from rfl,
        show t.insert l = (t, .error .MerkleTreeFull) from by
          unfold MerkleTree.insert
          rw [if_neg (by rw [hni]; exact hlt)]] at h
      exact absurd h (by simp)

/-- The freshly initialized tree satisfies the invariant for the empty list. -/
theorem initTree_inv : merkleInv initTree [] := by
  refine ⟨rfl, by simp [show initTree.filled_subtrees = List.replicate 20 zeroW from rfl,
      MERKLE_TREE_DEPTH], ?_, ?_, ?_⟩
  · intro j hj
    rw [show initTree.zero_hashes = zeroChain 20 zeroW from rfl,
      zeroChain_getD 20 zeroW j zeroW hj, zsFn_eq_zsIter]
  · intro j _ hodd
    simp at hodd
  · intro hne
    exact absurd rfl hne

/-- C4 counterexample: the claim includes the freshly initialized state, but
there `root = zero_hashes[DEPTH-1]` — the zero-subtree hash one level below
the root — while the hash of the full depth-`DEPTH` tree with all leaf slots
zero is `zsFn DEPTH = hash_node(zero_hashes[DEPTH-1], zero_hashes[DEPTH-1])`;
the two differ. -/
theorem C4_initial_root_counterexample :
    ¬ (initTree.root = subtreeRoot [] MERKLE_TREE_DEPTH 0) := by
  rw [subtree_zero MERKLE_TREE_DEPTH 0 [] (by simp),
    show zsFn MERKLE_TREE_DEPTH = mzh20 from zsFnEval20,
    show initTree.root = mzh19 from by rw [initTree_eval]; rfl]
  decide

/-- C4 (amended): in the freshly initialized state the root is
`zero_hashes[DEPTH-1]` (the depth-`DEPTH-1` all-zero subtree hash), and in
every state reached from `initialize()` by at least one successful `insert`
the stored root equals the hash of the full depth-`DEPTH` tree whose first
leaves are the inserted leaves in order and whose remaining slots are
zero. -/
theorem C4_root_invariant :
    initTree.root = zsFn (MERKLE_TREE_DEPTH - 1) ∧
    (∀ (ls : List Bytes) (t : MerkleTree), insertAll initTree ls = some t → ls ≠ [] →
      t.root = subtreeRoot ls MERKLE_TREE_DEPTH 0) := by
  constructor
  · rw [show initTree.root = (zeroChain 20 zeroW).getD 19 zeroW from rfl,
      zeroChain_getD 20 zeroW 19 zeroW (by omega)]
    exact (zsFn_eq_zsIter 19).symm
  · intro ls t h hne
    have hinv := insertAll_inv ls [] initTree t initTree_inv h
    simp only [List.nil_append] at hinv
    exact hinv.2.2.2.2 hne

/-- C4 witness: one concrete insertion into the freshly initialized tree. -/
theorem C4_root_invariant_witness :
    insertAll initTree [leafA] = some treeLit1 ∧ ([leafA] : List Bytes) ≠ [] ∧
      treeLit1.root = subtreeRoot [leafA] MERKLE_TREE_DEPTH 0 := by
  have h1 : insertAll initTree [leafA] = some treeLit1 := by
    rw [show insertAll initTree [leafA] = (match initTree.insert leafA with
        | (t', .ok _) => insertAll t' []
        | (_, .error _) => none) from rfl,
      initTree_eval, insertStep0]
    rfl
  exact ⟨h1, by simp, C4_root_invariant.2 [leafA] treeLit1 h1 (by simp)⟩
